import Mathlib

/-!
Verification of the master-wells record reconciliation pipeline.

A record set is modelled as a column-name list together with row-major data;
scalar values are `Option String` (`none` models SQL NULL / pandas NaN; the
pipeline reads every table with string dtype, so string is the value carrier).

Each source file of the repository is embedded in its own namespace:
* `Scripts`            — src/scripts/transform_master_wells_table.py (pandas)
* `Notebooks`          — src/notebooks/master_wells_transform.py (Snowpark)
* `MasterWells`        — src/master_wells_transform.py (Snowpark)
* `SnowflakeTransform` — src/notebooks/snowflake_transform.py (Snowpark)

Library operations the code calls (pandas merge, Python str.zfill, Snowflake
LPAD/SUBSTRING, Snowpark union_by_name / join / with_column) are modelled from
their documented semantics; each model carries a doc comment citing the
behaviour it encodes.
-/

/-- A scalar cell value: `none` is NULL (pandas NaN / SQL NULL). -/
abbrev Value := Option String

/-- A record set: ordered column names plus row-major data; every well-formed
row has exactly one entry per column. -/
structure RecordSet where
  cols : List String
  rows : List (List Value)
deriving DecidableEq, Repr

/-- Well-formedness: every row has one entry per column. -/
def RecordSet.WF (rs : RecordSet) : Prop :=
  ∀ r ∈ rs.rows, r.length = rs.cols.length

instance (rs : RecordSet) : Decidable rs.WF := by
  unfold RecordSet.WF; infer_instance

/-- Index of the first occurrence of a column name (length of the list when
absent). -/
def colIdx (cols : List String) (c : String) : Nat :=
  match cols with
  | [] => 0
  | d :: ds => if d = c then 0 else colIdx ds c + 1

/-- Values of a column, by first occurrence of the name; a missing column
reads as all-NULL.  Used to state theorems and to model pandas column reads. -/
def getColD (rs : RecordSet) (c : String) : List Value :=
  if rs.cols.contains c then rs.rows.map (fun r => r.getD (colIdx rs.cols c) none)
  else rs.rows.map (fun _ => none)

/-- Column assignment, pandas style (`df[c] = vals`): replaces the column in
place when the name exists, else appends it on the right. -/
def setCol (rs : RecordSet) (c : String) (vals : List Value) : RecordSet :=
  if rs.cols.contains c then
    { cols := rs.cols, rows := List.zipWith (fun r v => r.set (colIdx rs.cols c) v) rs.rows vals }
  else
    { cols := rs.cols ++ [c], rows := List.zipWith (fun r v => r ++ [v]) rs.rows vals }

/-- Python str conversion of a cell, as performed by pandas astype(str):
NaN prints as the string nan. -/
def astypeStr : Value → String
  | some s => s
  | none => "nan"

/-- Test for a leading ASCII sign character, as Python str.zfill performs on
the first character of the string. -/
def leadingSign (s : String) : Bool :=
  match s.data with
  | [] => false
  | c :: _ => c == '+' || c == '-'

/-- Python str.zfill(w): left-fill with the character 0 up to width w, a
leading sign staying in front of the inserted padding; a string of length at
least w is returned unchanged (no truncation). -/
def zfill (w : Nat) (s : String) : String :=
  if w ≤ s.length then s
  else
    let pad := String.mk (List.replicate (w - s.length) '0')
    if leadingSign s then s.take 1 ++ pad ++ s.drop 1
    else pad ++ s

/-- Snowflake LPAD(e, w, '0') as called through snowflake.snowpark.functions.lpad:
pads on the left up to length w and, unlike Python zfill, truncates the value
to its first w characters when it is longer than w. -/
def spLpad (w : Nat) (s : String) : String :=
  if w ≤ s.length then s.take w
  else String.mk (List.replicate (w - s.length) '0') ++ s

/-- Number of rows of a record set matching a key value at column index ri
(cell-level equality, as pandas merge matches NaN keys to NaN keys). -/
def matchCount (r : RecordSet) (ri : Nat) (v : Value) : Nat :=
  (r.rows.filter (fun rr => rr.getD ri none == v)).length

/-- Output rows a pandas left merge produces for one left row: the left row
once with NULL-filled right cells if nothing matches, else the left row glued
to each matching right row (right key column dropped), in right-row order. -/
def mergeRowGroup (r : RecordSet) (ri : Nat) (lr : List Value) (lv : Value) : List (List Value) :=
  if (r.rows.filter (fun rr => rr.getD ri none == lv)).isEmpty then
    [lr ++ List.replicate (r.cols.length - 1) none]
  else (r.rows.filter (fun rr => rr.getD ri none == lv)).map (fun rr => lr ++ rr.eraseIdx ri)

/-- Output schema of a pandas merge on a key with suffixes (None, suffix):
left columns unchanged, then the right non-key columns, a right column being
renamed with the suffix exactly when its name also occurs on the left. -/
def pdMergeCols (lc rc : List String) (key suffix : String) : List String :=
  lc ++ (rc.filter (fun c => !(c == key))).map (fun c => if lc.contains c then c ++ suffix else c)

/-- Model of pandas DataFrame.merge(on=key, how=left, suffixes=(None, suffix)):
KeyError when either side lacks the key; MergeError when the suffixing rule
yields duplicate output labels (pandas 2.x refuses such merges); otherwise a
left outer join keeping left row order, with matches in right order. -/
def pdMerge (l r : RecordSet) (key suffix : String) : Except String RecordSet :=
  if !(l.cols.contains key) || !(r.cols.contains key) then
    Except.error ("KeyError: " ++ key)
  else if (pdMergeCols l.cols r.cols key suffix).Nodup then
    let li := colIdx l.cols key
    let ri := colIdx r.cols key
    Except.ok { cols := pdMergeCols l.cols r.cols key suffix,
                rows := l.rows.flatMap (fun lr => mergeRowGroup r ri lr (lr.getD li none)) }
  else Except.error "MergeError: duplicate columns"

namespace Scripts

/-- Translation of generate_api_columns from
src/scripts/transform_master_wells_table.py: if API14 is absent it is built
from API, else from APINumber, via astype(str).str.zfill(14); with no source
column a KeyError is raised.  API12 and API10 are then always assigned as the
first 12 and 10 characters of API14 (str slicing maps NaN to NaN). -/
def generate_api_columns (df : RecordSet) : Except String RecordSet :=
  match (if df.cols.contains "API14" then Except.ok df
    else if df.cols.contains "API" then
      Except.ok (setCol df "API14" ((getColD df "API").map (fun v => some (zfill 14 (astypeStr v)))))
    else if df.cols.contains "APINumber" then
      Except.ok (setCol df "API14" ((getColD df "APINumber").map (fun v => some (zfill 14 (astypeStr v)))))
    else Except.error "No column available to build API14") with
  | Except.error e => Except.error e
  | Except.ok df1 =>
    let df2 := setCol df1 "API12" ((getColD df1 "API14").map (Option.map (fun s => s.take 12)))
    let df3 := setCol df2 "API10" ((getColD df2 "API14").map (Option.map (fun s => s.take 10)))
    Except.ok df3

/-- Translation of join_env_columns: df.merge(env_df, on=API14, how=left,
suffixes=(None, _env)). -/
def join_env_columns (df env_df : RecordSet) : Except String RecordSet :=
  pdMerge df env_df "API14" "_env"

/-- Translation of join_rbc_columns: df.merge(rbc_df, on=API14, how=left,
suffixes=(None, _rbc)). -/
def join_rbc_columns (df rbc_df : RecordSet) : Except String RecordSet :=
  pdMerge df rbc_df "API14" "_rbc"

end Scripts

/-- The unconditional tail of the pandas normalizer: assign API12, then
API10, both derived from the current API14 column.  Proof abbreviation for
the final two statements of Scripts.generate_api_columns. -/
def scriptsApiTail (df1 : RecordSet) : RecordSet :=
  setCol (setCol df1 "API12" ((getColD df1 "API14").map (Option.map (fun s => s.take 12))))
    "API10" ((getColD (setCol df1 "API12" ((getColD df1 "API14").map (Option.map (fun s => s.take 12)))) "API14").map (Option.map (fun s => s.take 10)))

/-- Model of Snowpark name resolution (df[name] / functions.col): succeeds
exactly when the record set carries the name once; a missing name — for
example a join key renamed away by join disambiguation — is an invalid
identifier, and a duplicated name is ambiguous. -/
def resolveCol (rs : RecordSet) (c : String) : Except String Nat :=
  if rs.cols.count c == 1 then Except.ok (colIdx rs.cols c)
  else Except.error ("cannot resolve column " ++ c)

/-- Drop from a row every cell whose column name matches. -/
def dropNamed (cols : List String) (name : String) (r : List Value) : List Value :=
  ((cols.zip r).filter (fun p => !(p.1 == name))).map (fun p => p.2)

/-- Model of Snowpark DataFrame.with_column: an existing column of that name
is replaced, the (re)computed column appearing on the right of the schema. -/
def spWithColumn (rs : RecordSet) (name : String) (vals : List Value) : RecordSet :=
  { cols := rs.cols.filter (fun c => !(c == name)) ++ [name],
    rows := List.zipWith (fun r v => dropNamed rs.cols name r ++ [v]) rs.rows vals }

/-- The API12 assignment of the Snowpark normalizer: with_column over the
substring(API14, 1, 12) expression, the column reference resolved on the
current frame.  Proof abbreviation for Notebooks.generate_api_columns. -/
def spApi12 (df1 : RecordSet) : RecordSet :=
  spWithColumn df1 "API12"
    (df1.rows.map (fun r => (r.getD (colIdx df1.cols "API14") none).map (fun s => s.take 12)))

/-- The unconditional tail of the Snowpark normalizer: assign API12, then
API10, both derived from the current API14 column.  Proof abbreviation for
the final statements of Notebooks.generate_api_columns. -/
def spApiTail (df1 : RecordSet) : RecordSet :=
  spWithColumn (spApi12 df1) "API10"
    ((spApi12 df1).rows.map
      (fun r => (r.getD (colIdx (spApi12 df1).cols "API14") none).map (fun s => s.take 10)))

/-- Model of Snowpark DataFrame.join(right, left[key] == right[key], how=left):
the data of both sides is retained (expression joins do not merge the key
columns), NULL keys match nothing (SQL equality), and an unmatched left row
is kept once with NULL-filled right cells.  Column names occurring on both
sides — at least the join key — are disambiguated: with no lsuffix/rsuffix
Snowpark renames them on both sides with randomly generated prefixes of the
shape l_xxxx_ and r_xxxx_; the model fixes the deterministic prefixes l_ and
r_, keeping the observable shape (an overlapping name survives on neither
side under its original name, non-overlapping names are kept). -/
def spJoinLeft (l r : RecordSet) (key : String) : Except String RecordSet := do
  let li ← resolveCol l key
  let ri ← resolveCol r key
  Except.ok { cols :=
                l.cols.map (fun c =>
                  if l.cols.contains c && r.cols.contains c then "l_" ++ c else c)
                ++ r.cols.map (fun c =>
                  if l.cols.contains c && r.cols.contains c then "r_" ++ c else c),
              rows := l.rows.flatMap (fun lr =>
                let ms := r.rows.filter (fun rr => match lr.getD li none, rr.getD ri none with
                  | some a, some b => a == b
                  | _, _ => false)
                if ms.isEmpty then [lr ++ List.replicate r.cols.length none]
                else ms.map (fun rr => lr ++ rr)) }

/-- Model of Snowpark DataFrame.union_by_name: matches columns by name and
fails when the two column-name sets differ (no NULL-filling of absent
columns); being SQL UNION rather than UNION ALL it removes duplicate rows
(the engine's row order is unspecified; the model uses List.dedup). -/
def spUnionByName (a b : RecordSet) : Except String RecordSet :=
  if a.cols.all (fun c => b.cols.contains c) && b.cols.all (fun c => a.cols.contains c) then
    Except.ok { cols := a.cols,
                rows := (a.rows ++ b.rows.map (fun br => a.cols.map (fun c => br.getD (colIdx b.cols c) none))).dedup }
  else Except.error "Unable to union by name: column sets differ"

namespace Notebooks

/-- Translation of generate_api_columns from
src/notebooks/master_wells_transform.py: builds API14 with
lpad(col, 14, lit 0) from API, else APINumber, erroring when neither exists,
then always recomputes API12 and API10 with substring(API14, 1, 12) and
substring(API14, 1, 10). -/
def generate_api_columns (df : RecordSet) : Except String RecordSet := do
  let df1 ←
    if df.cols.contains "API14" then Except.ok df
    else if df.cols.contains "API" then do
      let i ← resolveCol df "API"
      Except.ok (spWithColumn df "API14" (df.rows.map (fun r => (r.getD i none).map (spLpad 14))))
    else if df.cols.contains "APINumber" then do
      let i ← resolveCol df "APINumber"
      Except.ok (spWithColumn df "API14" (df.rows.map (fun r => (r.getD i none).map (spLpad 14))))
    else Except.error "No column available to build API14"
  let i14 ← resolveCol df1 "API14"
  let df2 := spWithColumn df1 "API12" (df1.rows.map (fun r => (r.getD i14 none).map (fun s => s.take 12)))
  let j14 ← resolveCol df2 "API14"
  let df3 := spWithColumn df2 "API10" (df2.rows.map (fun r => (r.getD j14 none).map (fun s => s.take 10)))
  Except.ok df3

/-- The select performed inside join_env_columns / join_rbc_columns: every
column except API14 is aliased to the suffixed name. -/
def renameSuffix (suffix : String) (rs : RecordSet) : RecordSet :=
  { cols := rs.cols.map (fun c => if c == "API14" then c else c ++ suffix),
    rows := rs.rows }

/-- Translation of join_env_columns: rename the secondary columns (except
API14) with _env, then a left join on df[API14] == env_renamed[API14]. -/
def join_env_columns (df env_df : RecordSet) : Except String RecordSet :=
  spJoinLeft df (renameSuffix "_env" env_df) "API14"

/-- Translation of join_rbc_columns: rename the secondary columns (except
API14) with _rbc, then a left join on df[API14] == rbc_renamed[API14]. -/
def join_rbc_columns (df rbc_df : RecordSet) : Except String RecordSet :=
  spJoinLeft df (renameSuffix "_rbc" rbc_df) "API14"

/-- Translation of build_table_name (Python truthiness on the optional
arguments: None and the empty string are both falsy). -/
def build_table_name (table : String) (database schema : Option String) : String :=
  if (database.getD "" != "") && (schema.getD "" != "") then
    database.getD "" ++ "." ++ schema.getD "" ++ "." ++ table
  else if schema.getD "" != "" then schema.getD "" ++ "." ++ table
  else table

/-- Translation of transform_master_wells_table from
src/notebooks/master_wells_transform.py; the three session.table loads are
the I/O boundary, so the three input record sets are parameters. -/
def transform_master_wells_table (rb_energy_wells env_df rbc_df : RecordSet) : Except String RecordSet := do
  let combined ← spUnionByName rb_energy_wells env_df
  let combined ← generate_api_columns combined
  let iwn ← resolveCol combined "WELL_NAME"
  let combined := spWithColumn combined "WELL_NAME_UPPER"
    (combined.rows.map (fun r => (r.getD iwn none).map String.toUpper))
  let combined ← join_env_columns combined env_df
  join_rbc_columns combined rbc_df

end Notebooks

namespace MasterWells

/-- Translation of union_tables from src/master_wells_transform.py:
df1.union_by_name(df2). -/
def union_tables (df1 df2 : RecordSet) : Except String RecordSet :=
  spUnionByName df1 df2

/-- Translation of join_tables: the pipeline calls it with the expression
enhanced[API_WELL_NUMBER] == rbc[API_WELL_NUMBER] and how=left, so the model
takes the key name of that equality expression. -/
def join_tables (df_left df_right : RecordSet) (key : String) : Except String RecordSet :=
  spJoinLeft df_left df_right key

/-- Translation of derive_columns: casts API_WELL_NUMBER to string (identity
on the string-valued model) and adds WELL_NAME_UPPER = upper(WELL_NAME). -/
def derive_columns (df : RecordSet) : Except String RecordSet := do
  let i ← resolveCol df "API_WELL_NUMBER"
  let df1 := spWithColumn df "API_WELL_NUMBER" (df.rows.map (fun r => r.getD i none))
  let j ← resolveCol df1 "WELL_NAME"
  Except.ok (spWithColumn df1 "WELL_NAME_UPPER"
    (df1.rows.map (fun r => (r.getD j none).map String.toUpper)))

/-- Translation of transform_master_wells_table from
src/master_wells_transform.py: union the two primary tables, derive columns,
left join the overrides on API_WELL_NUMBER (no column renaming).  The three
table loads are the I/O boundary, so the loaded record sets are parameters. -/
def transform_master_wells_table (rb_energy_wells raw_env_prism_wells rbc_well_overrides : RecordSet) :
    Except String RecordSet := do
  let combined ← union_tables rb_energy_wells raw_env_prism_wells
  let enhanced ← derive_columns combined
  join_tables enhanced rbc_well_overrides "API_WELL_NUMBER"

/-- Translation of build_table_name from src/master_wells_transform.py. -/
def build_table_name (table : String) (database schema : Option String) : String :=
  if (database.getD "" != "") && (schema.getD "" != "") then
    database.getD "" ++ "." ++ schema.getD "" ++ "." ++ table
  else if schema.getD "" != "" then schema.getD "" ++ "." ++ table
  else table

end MasterWells

namespace SnowflakeTransform

/-- Translation of union_tables from src/notebooks/snowflake_transform.py. -/
def union_tables (df1 df2 : RecordSet) : Except String RecordSet :=
  spUnionByName df1 df2

/-- Translation of join_tables from src/notebooks/snowflake_transform.py,
called with the key-equality expression of the pipeline. -/
def join_tables (df_left df_right : RecordSet) (key : String) : Except String RecordSet :=
  spJoinLeft df_left df_right key

/-- Translation of derive_columns from src/notebooks/snowflake_transform.py. -/
def derive_columns (df : RecordSet) : Except String RecordSet := do
  let i ← resolveCol df "API_WELL_NUMBER"
  let df1 := spWithColumn df "API_WELL_NUMBER" (df.rows.map (fun r => r.getD i none))
  let j ← resolveCol df1 "WELL_NAME"
  Except.ok (spWithColumn df1 "WELL_NAME_UPPER"
    (df1.rows.map (fun r => (r.getD j none).map String.toUpper)))

/-- Translation of transform_master_wells_table from
src/notebooks/snowflake_transform.py (same pipeline shape as the variant in
src/master_wells_transform.py). -/
def transform_master_wells_table (rb_energy_wells raw_env_prism_wells rbc_well_overrides : RecordSet) :
    Except String RecordSet := do
  let combined ← union_tables rb_energy_wells raw_env_prism_wells
  let enhanced ← derive_columns combined
  join_tables enhanced rbc_well_overrides "API_WELL_NUMBER"

/-- Translation of build_table_name from src/notebooks/snowflake_transform.py. -/
def build_table_name (table : String) (database schema : Option String) : String :=
  if (database.getD "" != "") && (schema.getD "" != "") then
    database.getD "" ++ "." ++ schema.getD "" ++ "." ++ table
  else if schema.getD "" != "" then schema.getD "" ++ "." ++ table
  else table

end SnowflakeTransform

/-! Helper lemmas about column indexing and column assignment. -/

theorem colIdx_lt_length {cols : List String} {c : String} (h : c ∈ cols) :
    colIdx cols c < cols.length := by
  induction cols with
  | nil => cases h
  | cons d ds ih =>
    simp only [colIdx, List.length_cons]
    by_cases hd : d = c
    · simp [hd]
    · have hc : c ∈ ds := by
        rcases List.mem_cons.mp h with h1 | h1
        · exact absurd h1.symm hd
        · exact h1
      simpa [hd] using Nat.succ_lt_succ (ih hc)

theorem getElem?_colIdx {cols : List String} {c : String} (h : c ∈ cols) :
    cols[colIdx cols c]? = some c := by
  induction cols with
  | nil => cases h
  | cons d ds ih =>
    by_cases hd : d = c
    · simp [colIdx, hd]
    · have hc : c ∈ ds := by
        rcases List.mem_cons.mp h with h1 | h1
        · exact absurd h1.symm hd
        · exact h1
      simpa [colIdx, hd] using ih hc

theorem colIdx_append_left {cols : List String} (cols2 : List String) {c : String} (h : c ∈ cols) :
    colIdx (cols ++ cols2) c = colIdx cols c := by
  induction cols with
  | nil => cases h
  | cons d ds ih =>
    by_cases hd : d = c
    · simp [colIdx, hd]
    · have hc : c ∈ ds := by
        rcases List.mem_cons.mp h with h1 | h1
        · exact absurd h1.symm hd
        · exact h1
      simpa [colIdx, hd] using ih hc

theorem colIdx_append_self {cols : List String} {c : String} (h : c ∉ cols) :
    colIdx (cols ++ [c]) c = cols.length := by
  induction cols with
  | nil => simp [colIdx]
  | cons d ds ih =>
    have hd : ¬ d = c := fun e => h (e ▸ List.mem_cons_self d ds)
    have hds : c ∉ ds := fun hc => h (List.mem_cons_of_mem d hc)
    simp [colIdx, hd, ih hds]

theorem colIdx_ne {cols : List String} {c d : String} (hc : c ∈ cols) (hd : d ∈ cols)
    (hne : c ≠ d) : colIdx cols c ≠ colIdx cols d := by
  intro he
  have h1 := getElem?_colIdx hc
  have h2 := getElem?_colIdx hd
  rw [he, h2] at h1
  exact hne (Option.some.inj h1).symm

theorem mem_zipWith_elim {α β γ : Type} {f : α → β → γ} :
    ∀ {l1 : List α} {l2 : List β} {x : γ}, x ∈ List.zipWith f l1 l2 →
      ∃ a, a ∈ l1 ∧ ∃ b, b ∈ l2 ∧ x = f a b := by
  intro l1
  induction l1 with
  | nil => intro l2 x h; simp at h
  | cons a as ih =>
    intro l2 x h
    cases l2 with
    | nil => simp at h
    | cons b bs =>
      rcases List.mem_cons.mp h with h1 | h1
      · exact ⟨a, List.mem_cons_self a as, b, List.mem_cons_self b bs, h1⟩
      · rcases ih h1 with ⟨a1, ha, b1, hb, hx⟩
        exact ⟨a1, List.mem_cons_of_mem a ha, b1, List.mem_cons_of_mem b hb, hx⟩

theorem length_getColD (rs : RecordSet) (c : String) :
    (getColD rs c).length = rs.rows.length := by
  unfold getColD; split <;> simp

theorem rows_length_setCol (rs : RecordSet) (c : String) (vals : List Value)
    (hlen : vals.length = rs.rows.length) :
    (setCol rs c vals).rows.length = rs.rows.length := by
  unfold setCol; split <;> simp [List.length_zipWith, hlen]

theorem setCol_WF (rs : RecordSet) (c : String) (vals : List Value)
    (hwf : rs.WF) : (setCol rs c vals).WF := by
  unfold setCol RecordSet.WF at *
  split
  · intro r hr
    rcases mem_zipWith_elim hr with ⟨a, ha, b, _, hx⟩
    subst hx; simp [hwf a ha]
  · intro r hr
    rcases mem_zipWith_elim hr with ⟨a, ha, b, _, hx⟩
    subst hx; simp [hwf a ha]

theorem map_getD_zipWith_set_self {i : Nat} :
    ∀ (rows : List (List Value)) (vals : List Value), vals.length = rows.length →
      (∀ r ∈ rows, i < r.length) →
      (List.zipWith (fun r v => r.set i v) rows vals).map (fun r => r.getD i none) = vals := by
  intro rows
  induction rows with
  | nil =>
    intro vals h _
    cases vals with
    | nil => rfl
    | cons v vs => simp at h
  | cons r rs ih =>
    intro vals h hb
    cases vals with
    | nil => simp at h
    | cons v vs =>
      simp only [List.zipWith_cons_cons, List.map_cons]
      have h1 : (r.set i v).getD i none = v := by
        rw [List.getD_eq_getElem?_getD, List.getElem?_set_self (hb r (List.mem_cons_self r rs))]
        rfl
      rw [h1, ih vs (by simpa using h) (fun a ha => hb a (List.mem_cons_of_mem r ha))]

theorem map_getD_zipWith_set_ne {i j : Nat} (hne : i ≠ j) :
    ∀ (rows : List (List Value)) (vals : List Value), vals.length = rows.length →
      (List.zipWith (fun r v => r.set i v) rows vals).map (fun r => r.getD j none)
        = rows.map (fun r => r.getD j none) := by
  intro rows
  induction rows with
  | nil =>
    intro vals h
    cases vals <;> simp
  | cons r rs ih =>
    intro vals h
    cases vals with
    | nil => simp at h
    | cons v vs =>
      simp only [List.zipWith_cons_cons, List.map_cons]
      have h1 : (r.set i v).getD j none = r.getD j none := by
        rw [List.getD_eq_getElem?_getD, List.getElem?_set_ne hne, ← List.getD_eq_getElem?_getD]
      rw [h1, ih vs (by simpa using h)]

theorem map_getD_zipWith_append_self {n : Nat} :
    ∀ (rows : List (List Value)) (vals : List Value), vals.length = rows.length →
      (∀ r ∈ rows, r.length = n) →
      (List.zipWith (fun r v => r ++ [v]) rows vals).map (fun r => r.getD n none) = vals := by
  intro rows
  induction rows with
  | nil =>
    intro vals h _
    cases vals with
    | nil => rfl
    | cons v vs => simp at h
  | cons r rs ih =>
    intro vals h hb
    cases vals with
    | nil => simp at h
    | cons v vs =>
      simp only [List.zipWith_cons_cons, List.map_cons]
      have h1 : (r ++ [v]).getD n none = v := by
        have hr := hb r (List.mem_cons_self r rs)
        rw [List.getD_append_right r [v] none n (Nat.le_of_eq hr), hr]
        simp
      rw [h1, ih vs (by simpa using h) (fun a ha => hb a (List.mem_cons_of_mem r ha))]

theorem map_getD_zipWith_append_lt {j : Nat} :
    ∀ (rows : List (List Value)) (vals : List Value), vals.length = rows.length →
      (∀ r ∈ rows, j < r.length) →
      (List.zipWith (fun r v => r ++ [v]) rows vals).map (fun r => r.getD j none)
        = rows.map (fun r => r.getD j none) := by
  intro rows
  induction rows with
  | nil =>
    intro vals h _
    cases vals <;> simp
  | cons r rs ih =>
    intro vals h hb
    cases vals with
    | nil => simp at h
    | cons v vs =>
      simp only [List.zipWith_cons_cons, List.map_cons]
      rw [List.getD_append r [v] none j (hb r (List.mem_cons_self r rs)),
        ih vs (by simpa using h) (fun a ha => hb a (List.mem_cons_of_mem r ha))]

theorem getColD_setCol_self (rs : RecordSet) (c : String) (vals : List Value)
    (hwf : rs.WF) (hlen : vals.length = rs.rows.length) :
    getColD (setCol rs c vals) c = vals := by
  unfold setCol
  by_cases hc : rs.cols.contains c = true
  · rw [if_pos hc]
    unfold getColD
    simp only [hc, if_pos]
    exact map_getD_zipWith_set_self rs.rows vals hlen
      (fun r hr => by rw [hwf r hr]; exact colIdx_lt_length (by simpa using hc))
  · rw [if_neg hc]
    unfold getColD
    have hc2 : (rs.cols ++ [c]).contains c = true := by simp
    rw [if_pos hc2, colIdx_append_self (by simpa using hc)]
    exact map_getD_zipWith_append_self rs.rows vals hlen (fun r hr => hwf r hr)

theorem exceptBind_ok {α β : Type} (a : α) (f : α → Except String β) :
    (Except.ok a >>= f) = f a := rfl

theorem resolveCol_ok (rs : RecordSet) (c : String) (h : rs.cols.count c = 1) :
    resolveCol rs c = Except.ok (colIdx rs.cols c) := by
  simp [resolveCol, h]

theorem count_cols_spWithColumn_ne (rs : RecordSet) (name c : String) (hne : c ≠ name)
    (vals : List Value) :
    (spWithColumn rs name vals).cols.count c = rs.cols.count c := by
  show ((rs.cols.filter fun x => !(x == name)) ++ [name]).count c = _
  rw [List.count_append, List.count_filter (by simp [hne]), List.count_singleton]
  simp [Ne.symm hne]

theorem count_cols_spWithColumn_self (rs : RecordSet) (name : String) (vals : List Value) :
    (spWithColumn rs name vals).cols.count name = 1 := by
  show ((rs.cols.filter fun x => !(x == name)) ++ [name]).count name = 1
  rw [List.count_append]
  have h0 : List.count name (rs.cols.filter fun x => !(x == name)) = 0 := by
    rw [List.count_eq_zero]
    intro hmem
    have hp := List.of_mem_filter hmem
    simp at hp
  rw [h0, List.count_singleton]
  simp

theorem resolveCol_spWithColumn_ne (rs : RecordSet) (name c : String) (hne : c ≠ name)
    (h : rs.cols.count c = 1) (vals : List Value) :
    resolveCol (spWithColumn rs name vals) c
      = Except.ok (colIdx (spWithColumn rs name vals).cols c) :=
  resolveCol_ok _ _ (by rw [count_cols_spWithColumn_ne rs name c hne vals]; exact h)

theorem resolveCol_spWithColumn_self (rs : RecordSet) (name : String) (vals : List Value) :
    resolveCol (spWithColumn rs name vals) name
      = Except.ok (colIdx (spWithColumn rs name vals).cols name) :=
  resolveCol_ok _ _ (count_cols_spWithColumn_self rs name vals)

theorem resolveCol_spW_spW_self_ne (rs : RecordSet) (n2 c : String) (hne : c ≠ n2)
    (vals1 vals2 : List Value) :
    resolveCol (spWithColumn (spWithColumn rs c vals1) n2 vals2) c
      = Except.ok (colIdx (spWithColumn (spWithColumn rs c vals1) n2 vals2).cols c) :=
  resolveCol_ok _ _ (by
    rw [count_cols_spWithColumn_ne _ _ _ hne, count_cols_spWithColumn_self])

theorem getColD_setCol_ne (rs : RecordSet) (c d : String) (vals : List Value)
    (hwf : rs.WF) (hlen : vals.length = rs.rows.length) (hne : d ≠ c) :
    getColD (setCol rs c vals) d = getColD rs d := by
  unfold setCol
  by_cases hc : rs.cols.contains c = true
  · rw [if_pos hc]
    unfold getColD
    by_cases hd : rs.cols.contains d = true
    · simp only [hd, if_pos]
      exact map_getD_zipWith_set_ne
        (colIdx_ne (by simpa using hc) (by simpa using hd) (fun e => hne e.symm)) rs.rows vals hlen
    · simp only [hd, if_neg, Bool.false_eq_true, not_false_iff]
      rw [List.map_const', List.map_const', List.length_zipWith, hlen, Nat.min_self]
  · rw [if_neg hc]
    unfold getColD
    by_cases hd : rs.cols.contains d = true
    · have hd2 : (rs.cols ++ [c]).contains d = true := by
        have hmem : d ∈ rs.cols ++ [c] := List.mem_append_left _ (by simpa using hd)
        simpa using hmem
      simp only [hd, hd2, if_pos]
      rw [colIdx_append_left [c] (by simpa using hd)]
      exact map_getD_zipWith_append_lt rs.rows vals hlen
        (fun r hr => by rw [hwf r hr]; exact colIdx_lt_length (by simpa using hd))
    · have hd2 : ¬ (rs.cols ++ [c]).contains d = true := by
        intro hcon
        have hsplit : d ∈ rs.cols ∨ d = c := by simpa using hcon
        rcases hsplit with h1 | h1
        · exact absurd h1 (by simpa using hd)
        · exact hne h1
      simp only [hd, hd2, if_neg, Bool.false_eq_true, not_false_iff]
      rw [List.map_const', List.map_const', List.length_zipWith, hlen, Nat.min_self]

/-! Claim C10. -/

/-- C10: build_table_name treats an empty-string database or schema the same
as an absent one (Python falsiness) and silently ignores the database
whenever the schema is absent: for every table t and every database option d,
each of the three build_table_name variants returns t when schema is None and
when schema is the empty string. -/
theorem c10_build_table_name_falsy_schema (t : String) (d : Option String) :
    MasterWells.build_table_name t d none = t ∧
    MasterWells.build_table_name t d (some "") = t ∧
    Notebooks.build_table_name t d none = t ∧
    Notebooks.build_table_name t d (some "") = t ∧
    SnowflakeTransform.build_table_name t d none = t ∧
    SnowflakeTransform.build_table_name t d (some "") = t := by
  refine ⟨?_, ?_, ?_, ?_, ?_, ?_⟩ <;>
    simp [MasterWells.build_table_name, Notebooks.build_table_name,
      SnowflakeTransform.build_table_name]

/-! Claim C7. -/

/-- C7: the identifier normalizer fails exactly when the record set carries
none of API14, API, APINumber, and on failure it yields the bare
missing-identifier error and no record set; proved for the pandas normalizer
and, on record sets with distinct column names, for the Snowpark one. -/
theorem c7_missing_identifier_column (df : RecordSet) (hnd : df.cols.Nodup) :
    ((Scripts.generate_api_columns df).isOk = false ↔
      ¬("API14" ∈ df.cols ∨ "API" ∈ df.cols ∨ "APINumber" ∈ df.cols)) ∧
    (¬("API14" ∈ df.cols ∨ "API" ∈ df.cols ∨ "APINumber" ∈ df.cols) →
      Scripts.generate_api_columns df = Except.error "No column available to build API14") ∧
    ((Notebooks.generate_api_columns df).isOk = false ↔
      ¬("API14" ∈ df.cols ∨ "API" ∈ df.cols ∨ "APINumber" ∈ df.cols)) ∧
    (¬("API14" ∈ df.cols ∨ "API" ∈ df.cols ∨ "APINumber" ∈ df.cols) →
      Notebooks.generate_api_columns df = Except.error "No column available to build API14") := by
  by_cases h14 : "API14" ∈ df.cols
  · have hc : df.cols.contains "API14" = true := by simpa using h14
    have hS : (Scripts.generate_api_columns df).isOk = true := by
      unfold Scripts.generate_api_columns
      rw [if_pos hc]
      rfl
    have hN : (Notebooks.generate_api_columns df).isOk = true := by
      have hcount : df.cols.count "API14" = 1 := List.count_eq_one_of_mem hnd h14
      simp [Notebooks.generate_api_columns, h14, exceptBind_ok,
        resolveCol_ok df "API14" hcount,
        resolveCol_spWithColumn_ne df "API12" "API14" (by simp) hcount,
        Except.isOk, Except.toBool]
    simp [hS, hN, h14]
  · by_cases hA : "API" ∈ df.cols
    · have hc14 : ¬ df.cols.contains "API14" = true := by simpa using h14
      have hcA : df.cols.contains "API" = true := by simpa using hA
      have hS : (Scripts.generate_api_columns df).isOk = true := by
        unfold Scripts.generate_api_columns
        rw [if_neg hc14, if_pos hcA]
        rfl
      have hN : (Notebooks.generate_api_columns df).isOk = true := by
        have hcount : df.cols.count "API" = 1 := List.count_eq_one_of_mem hnd hA
        simp [Notebooks.generate_api_columns, h14, hA, exceptBind_ok,
          resolveCol_ok df "API" hcount,
          resolveCol_spWithColumn_self df "API14",
          resolveCol_spW_spW_self_ne df "API12" "API14" (by simp),
          Except.isOk, Except.toBool]
      simp [hS, hN, hA]
    · by_cases hP : "APINumber" ∈ df.cols
      · have hc14 : ¬ df.cols.contains "API14" = true := by simpa using h14
        have hcA : ¬ df.cols.contains "API" = true := by simpa using hA
        have hcP : df.cols.contains "APINumber" = true := by simpa using hP
        have hS : (Scripts.generate_api_columns df).isOk = true := by
          unfold Scripts.generate_api_columns
          rw [if_neg hc14, if_neg hcA, if_pos hcP]
          rfl
        have hN : (Notebooks.generate_api_columns df).isOk = true := by
          have hcount : df.cols.count "APINumber" = 1 := List.count_eq_one_of_mem hnd hP
          simp [Notebooks.generate_api_columns, h14, hA, hP, exceptBind_ok,
            resolveCol_ok df "APINumber" hcount,
            resolveCol_spWithColumn_self df "API14",
            resolveCol_spW_spW_self_ne df "API12" "API14" (by simp),
            Except.isOk, Except.toBool]
        simp [hS, hN, hP]
      · have hc14 : ¬ df.cols.contains "API14" = true := by simpa using h14
        have hcA : ¬ df.cols.contains "API" = true := by simpa using hA
        have hcP : ¬ df.cols.contains "APINumber" = true := by simpa using hP
        have hS : Scripts.generate_api_columns df
            = Except.error "No column available to build API14" := by
          unfold Scripts.generate_api_columns
          rw [if_neg hc14, if_neg hcA, if_neg hcP]
        have hN : Notebooks.generate_api_columns df
            = Except.error "No column available to build API14" := by
          unfold Notebooks.generate_api_columns
          rw [if_neg hc14, if_neg hcA, if_neg hcP]
          rfl
        refine ⟨?_, fun _ => hS, ?_, fun _ => hN⟩ <;>
          simp [hS, hN, Except.isOk, Except.toBool, h14, hA, hP]

/-- C7 witness: the theorem applied to a concrete record set carrying none of
the identifier columns. -/
theorem c7_missing_identifier_column_witness :
    ((Scripts.generate_api_columns ⟨["X"], [[some "v"]]⟩).isOk = false ↔
      ¬("API14" ∈ ["X"] ∨ "API" ∈ ["X"] ∨ "APINumber" ∈ ["X"])) ∧
    (¬("API14" ∈ ["X"] ∨ "API" ∈ ["X"] ∨ "APINumber" ∈ ["X"]) →
      Scripts.generate_api_columns ⟨["X"], [[some "v"]]⟩
        = Except.error "No column available to build API14") ∧
    ((Notebooks.generate_api_columns ⟨["X"], [[some "v"]]⟩).isOk = false ↔
      ¬("API14" ∈ ["X"] ∨ "API" ∈ ["X"] ∨ "APINumber" ∈ ["X"])) ∧
    (¬("API14" ∈ ["X"] ∨ "API" ∈ ["X"] ∨ "APINumber" ∈ ["X"]) →
      Notebooks.generate_api_columns ⟨["X"], [[some "v"]]⟩
        = Except.error "No column available to build API14") :=
  c7_missing_identifier_column ⟨["X"], [[some "v"]]⟩ (by decide)

/-! Claim C4. -/

set_option maxHeartbeats 1600000 in
/-- C4 (amended): on the pandas side API14 is zfill(14, s), which left-pads
with zeros (a leading sign staying in front of the inserted padding) and
never truncates a value of length at least 14; on the Snowpark side API14 is
lpad(s, 14, '0'), which truncates a longer value to its first 14
characters. -/
theorem c4_zero_padding_policy (s : String) :
    Except.map (fun g => getColD g "API14")
        (Scripts.generate_api_columns ⟨["API"], [[some s]]⟩)
      = Except.ok [some (zfill 14 s)] ∧
    Except.map (fun g => getColD g "API14")
        (Notebooks.generate_api_columns ⟨["API"], [[some s]]⟩)
      = Except.ok [some (spLpad 14 s)] ∧
    (14 ≤ s.length → zfill 14 s = s) ∧
    (s.length < 14 → leadingSign s = false →
      zfill 14 s = String.mk (List.replicate (14 - s.length) '0') ++ s) ∧
    (14 < s.length → spLpad 14 s = s.take 14 ∧ spLpad 14 s ≠ s) := by
  refine ⟨rfl, rfl, ?_, ?_, ?_⟩
  · intro h
    simp [zfill, h]
  · intro h hsign
    simp [zfill, Nat.not_le.mpr h, hsign]
  · intro h
    have hle : 14 ≤ s.length := Nat.le_of_lt h
    refine ⟨by simp [spLpad, hle], ?_⟩
    rw [show spLpad 14 s = s.take 14 from by simp [spLpad, hle]]
    intro heq
    have hdata := congrArg String.data heq
    rw [String.data_take] at hdata
    have hlen := congrArg List.length hdata
    rw [List.length_take] at hlen
    have hdl : s.length = s.data.length := rfl
    omega

/-- C4 witness: the padding clauses of the theorem discharged at the concrete
values 123456789012345 (length 15) and 123 (length 3, no sign). -/
theorem c4_zero_padding_policy_witness :
    zfill 14 "123456789012345" = "123456789012345" ∧
    zfill 14 "123" = String.mk (List.replicate 11 '0') ++ "123" ∧
    spLpad 14 "123456789012345" = "123456789012345".take 14 :=
  ⟨(c4_zero_padding_policy "123456789012345").2.2.1 (by decide),
   (c4_zero_padding_policy "123").2.2.2.1 (by decide) (by decide),
   ((c4_zero_padding_policy "123456789012345").2.2.2.2 (by decide)).1⟩

/-- C4 counterexample: the Snowpark normalizer truncates a 15-character
identifier to 14 characters, contradicting the claim that a value of length
at least 14 is kept as-is with no truncation; and Python zfill keeps a
leading sign in front of the padding, so the result is not literally the
left-padded string form. -/
theorem c4_zero_padding_policy_counterexample :
    Notebooks.generate_api_columns ⟨["API"], [[some "123456789012345"]]⟩
      = Except.ok ⟨["API", "API14", "API12", "API10"],
          [[some "123456789012345", some "12345678901234",
            some "123456789012", some "1234567890"]]⟩ ∧
    "12345678901234" ≠ "123456789012345" ∧
    zfill 14 "-123" = "-0000000000123" ∧
    "-0000000000123" ≠ String.mk (List.replicate 10 '0') ++ "-123" :=
  ⟨rfl, by decide, rfl, by decide⟩

/-! Helper lemmas about spWithColumn column reads, used for the Snowpark
normalizer. -/

theorem colIdx_cons (x : String) (xs : List String) (d : String) :
    colIdx (x :: xs) d = if x = d then 0 else colIdx xs d + 1 := rfl

theorem length_dropNamed (name : String) :
    ∀ (cols : List String) (r : List Value), r.length = cols.length →
      (dropNamed cols name r).length = (cols.filter (fun c => !(c == name))).length := by
  intro cols
  induction cols with
  | nil =>
    intro r h
    rcases List.length_eq_zero.mp h with rfl
    rfl
  | cons c cs ih =>
    intro r h
    cases r with
    | nil => simp at h
    | cons v rv =>
      have h2 := ih rv (by simpa using h)
      unfold dropNamed at h2 ⊢
      rw [List.zip_cons_cons, List.filter_cons, List.filter_cons]
      by_cases hc : (c == name) = true
      · rw [if_neg (by simp [hc]), if_neg (by simp [hc])]
        exact h2
      · rw [if_pos (by simp [hc]), if_pos (by simp [hc]), List.map_cons,
          List.length_cons, List.length_cons, h2]

theorem getD_dropNamed (name d : String) (hne : d ≠ name) :
    ∀ (cols : List String) (r : List Value), r.length = cols.length → d ∈ cols →
      (dropNamed cols name r).getD (colIdx (cols.filter (fun c => !(c == name))) d) none
        = r.getD (colIdx cols d) none := by
  intro cols
  induction cols with
  | nil => intro r _ hd; cases hd
  | cons c cs ih =>
    intro r h hd
    cases r with
    | nil => simp at h
    | cons v rv =>
      unfold dropNamed
      rw [List.zip_cons_cons, List.filter_cons, List.filter_cons]
      by_cases hc : (c == name) = true
      · have hcd : ¬ c = d := fun he => hne (he ▸ (by simpa using hc) : d = name)
        have hdcs : d ∈ cs := by
          rcases List.mem_cons.mp hd with h1 | h1
          · exact absurd h1.symm hcd
          · exact h1
        have h2 := ih rv (by simpa using h) hdcs
        unfold dropNamed at h2
        rw [if_neg (by simp [hc]), if_neg (by simp [hc]), h2, colIdx_cons, if_neg hcd,
          List.getD_cons_succ]
      · rw [if_pos (by simp [hc]), if_pos (by simp [hc]), List.map_cons, colIdx_cons, colIdx_cons]
        by_cases hcd : c = d
        · rw [if_pos hcd, if_pos hcd, List.getD_cons_zero, List.getD_cons_zero]
        · have hdcs : d ∈ cs := by
            rcases List.mem_cons.mp hd with h1 | h1
            · exact absurd h1.symm hcd
            · exact h1
          have h2 := ih rv (by simpa using h) hdcs
          unfold dropNamed at h2
          rw [if_neg hcd, if_neg hcd, List.getD_cons_succ, List.getD_cons_succ, h2]

theorem spWithColumn_WF (rs : RecordSet) (name : String) (vals : List Value)
    (hwf : rs.WF) : (spWithColumn rs name vals).WF := by
  unfold spWithColumn RecordSet.WF at *
  intro r hr
  rcases mem_zipWith_elim hr with ⟨a, ha, b, _, hx⟩
  subst hx
  rw [List.length_append, List.length_append, length_dropNamed name rs.cols a (hwf a ha)]
  rfl

theorem rows_length_spWithColumn (rs : RecordSet) (name : String) (vals : List Value)
    (hlen : vals.length = rs.rows.length) :
    (spWithColumn rs name vals).rows.length = rs.rows.length := by
  unfold spWithColumn
  simp [List.length_zipWith, hlen]

theorem map_getD_zipWith_fAppend_self {n : Nat} (f : List Value → List Value) :
    ∀ (rows : List (List Value)) (vals : List Value), vals.length = rows.length →
      (∀ r ∈ rows, (f r).length = n) →
      (List.zipWith (fun r v => f r ++ [v]) rows vals).map (fun r => r.getD n none) = vals := by
  intro rows
  induction rows with
  | nil =>
    intro vals h _
    cases vals with
    | nil => rfl
    | cons v vs => simp at h
  | cons r rs ih =>
    intro vals h hb
    cases vals with
    | nil => simp at h
    | cons v vs =>
      simp only [List.zipWith_cons_cons, List.map_cons]
      have h1 : (f r ++ [v]).getD n none = v := by
        have hr := hb r (List.mem_cons_self r rs)
        rw [List.getD_append_right (f r) [v] none n (Nat.le_of_eq hr), hr]
        simp
      rw [h1, ih vs (by simpa using h) (fun a ha => hb a (List.mem_cons_of_mem r ha))]

theorem map_getD_zipWith_fAppend_lt {j : Nat} (f : List Value → List Value) :
    ∀ (rows : List (List Value)) (vals : List Value), vals.length = rows.length →
      (∀ r ∈ rows, j < (f r).length) →
      (List.zipWith (fun r v => f r ++ [v]) rows vals).map (fun r => r.getD j none)
        = rows.map (fun r => (f r).getD j none) := by
  intro rows
  induction rows with
  | nil =>
    intro vals h _
    cases vals <;> simp
  | cons r rs ih =>
    intro vals h hb
    cases vals with
    | nil => simp at h
    | cons v vs =>
      simp only [List.zipWith_cons_cons, List.map_cons]
      rw [List.getD_append (f r) [v] none j (hb r (List.mem_cons_self r rs)),
        ih vs (by simpa using h) (fun a ha => hb a (List.mem_cons_of_mem r ha))]

theorem getColD_spWithColumn_self (rs : RecordSet) (name : String) (vals : List Value)
    (hwf : rs.WF) (hlen : vals.length = rs.rows.length) :
    getColD (spWithColumn rs name vals) name = vals := by
  have hcols : (spWithColumn rs name vals).cols
      = rs.cols.filter (fun c => !(c == name)) ++ [name] := rfl
  have hrows : (spWithColumn rs name vals).rows
      = List.zipWith (fun r v => dropNamed rs.cols name r ++ [v]) rs.rows vals := rfl
  unfold getColD
  rw [hcols, hrows]
  have hcontains : ((rs.cols.filter (fun c => !(c == name)) ++ [name]).contains name) = true := by
    simp
  rw [if_pos hcontains]
  have hnotmem : name ∉ rs.cols.filter (fun c => !(c == name)) := fun hmem => by
    simpa using (List.mem_filter.mp hmem).2
  rw [colIdx_append_self hnotmem]
  exact map_getD_zipWith_fAppend_self (dropNamed rs.cols name) rs.rows vals hlen
    (fun r hr => length_dropNamed name rs.cols r (hwf r hr))

theorem getColD_spWithColumn_ne (rs : RecordSet) (name d : String) (vals : List Value)
    (hwf : rs.WF) (hlen : vals.length = rs.rows.length) (hne : d ≠ name) :
    getColD (spWithColumn rs name vals) d = getColD rs d := by
  have hcols : (spWithColumn rs name vals).cols
      = rs.cols.filter (fun c => !(c == name)) ++ [name] := rfl
  have hrows : (spWithColumn rs name vals).rows
      = List.zipWith (fun r v => dropNamed rs.cols name r ++ [v]) rs.rows vals := rfl
  unfold getColD
  rw [hcols, hrows]
  by_cases hd : d ∈ rs.cols
  · have hdf : d ∈ rs.cols.filter (fun c => !(c == name)) :=
      List.mem_filter.mpr ⟨hd, by simp [hne]⟩
    have hcont1 : ((rs.cols.filter (fun c => !(c == name)) ++ [name]).contains d) = true := by
      simpa using Or.inl ⟨hd, hne⟩
    have hcont2 : rs.cols.contains d = true := by simpa using hd
    rw [if_pos hcont1, if_pos hcont2, colIdx_append_left _ hdf]
    rw [map_getD_zipWith_fAppend_lt (dropNamed rs.cols name) rs.rows vals hlen
      (fun r hr => by
        rw [length_dropNamed name rs.cols r (hwf r hr)]
        exact colIdx_lt_length hdf)]
    exact List.map_congr_left (fun r hr => getD_dropNamed name d hne rs.cols r (hwf r hr) hd)
  · have hd2 : ¬ ((rs.cols.filter (fun c => !(c == name)) ++ [name]).contains d = true) := by
      intro hcon
      have hsplit : d ∈ rs.cols.filter (fun c => !(c == name)) ∨ d = name := by simpa using hcon
      rcases hsplit with h1 | h1
      · exact hd (List.mem_filter.mp h1).1
      · exact hne h1
    have hd3 : ¬ (rs.cols.contains d = true) := by simpa using hd
    rw [if_neg hd2, if_neg hd3, List.map_const', List.map_const', List.length_zipWith,
      hlen, Nat.min_self]

theorem getColD_pos (rs : RecordSet) (c : String) (h : c ∈ rs.cols) :
    getColD rs c = rs.rows.map (fun r => r.getD (colIdx rs.cols c) none) := by
  unfold getColD
  rw [if_pos (by simpa using h)]

theorem mem_cols_spWithColumn_of_ne (rs : RecordSet) (name c : String) (vals : List Value)
    (hc : c ∈ rs.cols) (hne : c ≠ name) : c ∈ (spWithColumn rs name vals).cols :=
  List.mem_append_left _ (List.mem_filter.mpr ⟨hc, by simp [hne]⟩)

theorem sp_tail_spec (df1 : RecordSet) (hwf1 : df1.WF) (h14 : "API14" ∈ df1.cols) :
    getColD (spApiTail df1) "API14" = getColD df1 "API14" ∧
    getColD (spApiTail df1) "API12"
      = (getColD (spApiTail df1) "API14").map (Option.map (fun s => s.take 12)) ∧
    getColD (spApiTail df1) "API10"
      = (getColD (spApiTail df1) "API14").map (Option.map (fun s => s.take 10)) := by
  have hlen12 : (df1.rows.map (fun r =>
      (r.getD (colIdx df1.cols "API14") none).map (fun s => s.take 12))).length
      = df1.rows.length := by simp
  have hwf2 : (spApi12 df1).WF := spWithColumn_WF df1 "API12" _ hwf1
  have hrows2 : (spApi12 df1).rows.length = df1.rows.length :=
    rows_length_spWithColumn df1 "API12" _ hlen12
  have h14mem2 : "API14" ∈ (spApi12 df1).cols :=
    mem_cols_spWithColumn_of_ne df1 "API12" "API14" _ h14 (by decide)
  have hlen10 : ((spApi12 df1).rows.map (fun r =>
      (r.getD (colIdx (spApi12 df1).cols "API14") none).map (fun s => s.take 10))).length
      = (spApi12 df1).rows.length := by simp
  have e14_2 : getColD (spApi12 df1) "API14" = getColD df1 "API14" :=
    getColD_spWithColumn_ne df1 "API12" "API14" _ hwf1 hlen12 (by decide)
  have e12_2 : getColD (spApi12 df1) "API12" = df1.rows.map (fun r =>
      (r.getD (colIdx df1.cols "API14") none).map (fun s => s.take 12)) :=
    getColD_spWithColumn_self df1 "API12" _ hwf1 hlen12
  have e14_3 : getColD (spApiTail df1) "API14" = getColD (spApi12 df1) "API14" :=
    getColD_spWithColumn_ne (spApi12 df1) "API10" "API14" _ hwf2 hlen10 (by decide)
  have e12_3 : getColD (spApiTail df1) "API12" = getColD (spApi12 df1) "API12" :=
    getColD_spWithColumn_ne (spApi12 df1) "API10" "API12" _ hwf2 hlen10 (by decide)
  have e10_3 : getColD (spApiTail df1) "API10" = (spApi12 df1).rows.map (fun r =>
      (r.getD (colIdx (spApi12 df1).cols "API14") none).map (fun s => s.take 10)) :=
    getColD_spWithColumn_self (spApi12 df1) "API10" _ hwf2 hlen10
  refine ⟨e14_3.trans e14_2, ?_, ?_⟩
  · rw [e12_3, e12_2, e14_3, e14_2, getColD_pos df1 "API14" h14, List.map_map]
    rfl
  · rw [e10_3, e14_3, getColD_pos (spApi12 df1) "API14" h14mem2, List.map_map]
    rfl

theorem notebooks_gen_eq_c14 (df : RecordSet) (h : df.cols.count "API14" = 1) :
    Notebooks.generate_api_columns df = Except.ok (spApiTail df) := by
  have hmem : "API14" ∈ df.cols := List.count_pos_iff.mp (by omega)
  simp [Notebooks.generate_api_columns, spApiTail, spApi12, hmem, exceptBind_ok,
    resolveCol_ok df "API14" h,
    resolveCol_spWithColumn_ne df "API12" "API14" (by decide) h]

theorem notebooks_gen_eq_api (df : RecordSet) (h14 : "API14" ∉ df.cols)
    (hA : df.cols.count "API" = 1) :
    Notebooks.generate_api_columns df = Except.ok (spApiTail
      (spWithColumn df "API14"
        (df.rows.map (fun r => (r.getD (colIdx df.cols "API") none).map (spLpad 14))))) := by
  have hmemA : "API" ∈ df.cols := List.count_pos_iff.mp (by omega)
  simp [Notebooks.generate_api_columns, spApiTail, spApi12, h14, hmemA, exceptBind_ok,
    resolveCol_ok df "API" hA,
    resolveCol_spWithColumn_self df "API14",
    resolveCol_spW_spW_self_ne df "API12" "API14" (by decide)]

theorem notebooks_gen_eq_apinumber (df : RecordSet) (h14 : "API14" ∉ df.cols)
    (hA : "API" ∉ df.cols) (hP : df.cols.count "APINumber" = 1) :
    Notebooks.generate_api_columns df = Except.ok (spApiTail
      (spWithColumn df "API14"
        (df.rows.map (fun r => (r.getD (colIdx df.cols "APINumber") none).map (spLpad 14))))) := by
  have hmemP : "APINumber" ∈ df.cols := List.count_pos_iff.mp (by omega)
  simp [Notebooks.generate_api_columns, spApiTail, spApi12, h14, hA, hmemP, exceptBind_ok,
    resolveCol_ok df "APINumber" hP,
    resolveCol_spWithColumn_self df "API14",
    resolveCol_spW_spW_self_ne df "API12" "API14" (by decide)]

/-! Claim C1. -/

theorem scripts_tail_spec (df1 df2 df3 : RecordSet) (hwf1 : df1.WF)
    (h2 : df2 = setCol df1 "API12" ((getColD df1 "API14").map (Option.map (fun s => s.take 12))))
    (h3 : df3 = setCol df2 "API10" ((getColD df2 "API14").map (Option.map (fun s => s.take 10)))) :
    getColD df3 "API14" = getColD df1 "API14" ∧
    getColD df3 "API12" = (getColD df3 "API14").map (Option.map (fun s => s.take 12)) ∧
    getColD df3 "API10" = (getColD df3 "API14").map (Option.map (fun s => s.take 10)) := by
  subst h2
  subst h3
  have hlen12 : ((getColD df1 "API14").map (Option.map (fun s => s.take 12))).length
      = df1.rows.length := by simp [length_getColD]
  have hwf2 : (setCol df1 "API12" ((getColD df1 "API14").map (Option.map (fun s => s.take 12)))).WF :=
    setCol_WF _ _ _ hwf1
  have hlen10 : ((getColD (setCol df1 "API12" ((getColD df1 "API14").map (Option.map (fun s => s.take 12)))) "API14").map (Option.map (fun s => s.take 10))).length
      = (setCol df1 "API12" ((getColD df1 "API14").map (Option.map (fun s => s.take 12)))).rows.length := by
    simp [length_getColD]
  have h14_2 := getColD_setCol_ne df1 "API12" "API14"
    ((getColD df1 "API14").map (Option.map (fun s => s.take 12))) hwf1 hlen12 (by simp)
  have h14_3 := getColD_setCol_ne _ "API10" "API14" _ hwf2 hlen10 (by simp)
  have h12_3 := getColD_setCol_ne _ "API10" "API12" _ hwf2 hlen10 (by simp)
  have h12_2 := getColD_setCol_self df1 "API12"
    ((getColD df1 "API14").map (Option.map (fun s => s.take 12))) hwf1 hlen12
  have h10_3 := getColD_setCol_self _ "API10" _ hwf2 hlen10
  refine ⟨h14_3.trans h14_2, ?_, ?_⟩
  · rw [h12_3, h12_2, h14_3, h14_2]
  · rw [h10_3, h14_3]

theorem derived_pointwise (g : RecordSet)
    (h12 : getColD g "API12" = (getColD g "API14").map (Option.map (fun s => s.take 12)))
    (h10 : getColD g "API10" = (getColD g "API14").map (Option.map (fun s => s.take 10))) :
    ∀ i s14, (getColD g "API14").getD i none = some s14 →
      (getColD g "API12").getD i none = some (s14.take 12) ∧
      (getColD g "API10").getD i none = some (s14.take 10) ∧
      (s14.take 12).data <+: s14.data ∧ (s14.take 10).data <+: s14.data := by
  intro i s14 h14
  have hx : (getColD g "API14")[i]? = some (some s14) := by
    rw [List.getD_eq_getElem?_getD] at h14
    cases hy : (getColD g "API14")[i]? with
    | none => rw [hy] at h14; simp at h14
    | some v =>
        rw [hy] at h14
        have hv : v = some s14 := by simpa using h14
        rw [hv]
  refine ⟨?_, ?_, ?_, ?_⟩
  · rw [h12, List.getD_eq_getElem?_getD, List.getElem?_map, hx]; rfl
  · rw [h10, List.getD_eq_getElem?_getD, List.getElem?_map, hx]; rfl
  · rw [String.data_take]; exact List.take_prefix 12 s14.data
  · rw [String.data_take]; exact List.take_prefix 10 s14.data

/-- C1 (amended): given at least one identifier column (and, for the Snowpark
normalizer, distinct column names), both normalizers succeed, following the
same fallback order API14 / API / APINumber and always recomputing API12 and
API10 as the exact 12- and 10-character prefixes of API14 (overwriting any
pre-existing values); but only the pandas normalizer builds API14 as the
zero-left-padded string form of the fallback column (zfill: sign kept in
front, no truncation) - the Snowpark normalizer builds it with lpad, which
truncates a value longer than 14 characters to its first 14. -/
theorem c1_generate_api_columns_spec (df : RecordSet) (hwf : df.WF) (hnd : df.cols.Nodup)
    (hid : "API14" ∈ df.cols ∨ "API" ∈ df.cols ∨ "APINumber" ∈ df.cols) :
    (∃ g, Scripts.generate_api_columns df = Except.ok g ∧
      ("API14" ∈ df.cols → getColD g "API14" = getColD df "API14") ∧
      ("API14" ∉ df.cols → "API" ∈ df.cols →
        getColD g "API14" = (getColD df "API").map (fun v => some (zfill 14 (astypeStr v)))) ∧
      ("API14" ∉ df.cols → "API" ∉ df.cols →
        getColD g "API14" = (getColD df "APINumber").map (fun v => some (zfill 14 (astypeStr v)))) ∧
      getColD g "API12" = (getColD g "API14").map (Option.map (fun s => s.take 12)) ∧
      getColD g "API10" = (getColD g "API14").map (Option.map (fun s => s.take 10)) ∧
      (∀ i s14, (getColD g "API14").getD i none = some s14 →
        (getColD g "API12").getD i none = some (s14.take 12) ∧
        (getColD g "API10").getD i none = some (s14.take 10) ∧
        (s14.take 12).data <+: s14.data ∧ (s14.take 10).data <+: s14.data)) ∧
    (∃ g, Notebooks.generate_api_columns df = Except.ok g ∧
      ("API14" ∈ df.cols → getColD g "API14" = getColD df "API14") ∧
      ("API14" ∉ df.cols → "API" ∈ df.cols →
        getColD g "API14" = (getColD df "API").map (Option.map (spLpad 14))) ∧
      ("API14" ∉ df.cols → "API" ∉ df.cols →
        getColD g "API14" = (getColD df "APINumber").map (Option.map (spLpad 14))) ∧
      getColD g "API12" = (getColD g "API14").map (Option.map (fun s => s.take 12)) ∧
      getColD g "API10" = (getColD g "API14").map (Option.map (fun s => s.take 10)) ∧
      (∀ i s14, (getColD g "API14").getD i none = some s14 →
        (getColD g "API12").getD i none = some (s14.take 12) ∧
        (getColD g "API10").getD i none = some (s14.take 10) ∧
        (s14.take 12).data <+: s14.data ∧ (s14.take 10).data <+: s14.data)) := by
  constructor
  · by_cases h14 : "API14" ∈ df.cols
    · have hc : df.cols.contains "API14" = true := by simpa using h14
      obtain ⟨hA14, hA12, hA10⟩ := scripts_tail_spec df _ _ hwf rfl rfl
      refine ⟨_, ?_, fun _ => hA14, fun hn => absurd h14 hn, fun hn _ => absurd h14 hn,
        hA12, hA10, derived_pointwise _ hA12 hA10⟩
      unfold Scripts.generate_api_columns
      rw [if_pos hc]
    · by_cases hA : "API" ∈ df.cols
      · have hc14 : ¬ df.cols.contains "API14" = true := by simpa using h14
        have hcA : df.cols.contains "API" = true := by simpa using hA
        have hlenA : ((getColD df "API").map (fun v => some (zfill 14 (astypeStr v)))).length
            = df.rows.length := by simp [length_getColD]
        have hwf1 : (setCol df "API14" ((getColD df "API").map (fun v => some (zfill 14 (astypeStr v))))).WF :=
          setCol_WF _ _ _ hwf
        obtain ⟨hA14, hA12, hA10⟩ := scripts_tail_spec _ _ _ hwf1 rfl rfl
        have hself := getColD_setCol_self df "API14"
          ((getColD df "API").map (fun v => some (zfill 14 (astypeStr v)))) hwf hlenA
        refine ⟨_, ?_, fun hmem => absurd hmem h14, fun _ _ => hA14.trans hself,
          fun _ hn => absurd hA hn, hA12, hA10, derived_pointwise _ hA12 hA10⟩
        unfold Scripts.generate_api_columns
        rw [if_neg hc14, if_pos hcA]
      · have hP : "APINumber" ∈ df.cols := by
          rcases hid with h | h | h
          · exact absurd h h14
          · exact absurd h hA
          · exact h
        have hc14 : ¬ df.cols.contains "API14" = true := by simpa using h14
        have hcA : ¬ df.cols.contains "API" = true := by simpa using hA
        have hcP : df.cols.contains "APINumber" = true := by simpa using hP
        have hlenP : ((getColD df "APINumber").map (fun v => some (zfill 14 (astypeStr v)))).length
            = df.rows.length := by simp [length_getColD]
        have hwf1 : (setCol df "API14" ((getColD df "APINumber").map (fun v => some (zfill 14 (astypeStr v))))).WF :=
          setCol_WF _ _ _ hwf
        obtain ⟨hA14, hA12, hA10⟩ := scripts_tail_spec _ _ _ hwf1 rfl rfl
        have hself := getColD_setCol_self df "API14"
          ((getColD df "APINumber").map (fun v => some (zfill 14 (astypeStr v)))) hwf hlenP
        refine ⟨_, ?_, fun hmem => absurd hmem h14, fun _ hmem => absurd hmem hA,
          fun _ _ => hA14.trans hself, hA12, hA10, derived_pointwise _ hA12 hA10⟩
        unfold Scripts.generate_api_columns
        rw [if_neg hc14, if_neg hcA, if_pos hcP]
  · by_cases h14 : "API14" ∈ df.cols
    · obtain ⟨hA14, hA12, hA10⟩ := sp_tail_spec df hwf h14
      exact ⟨_, notebooks_gen_eq_c14 df (List.count_eq_one_of_mem hnd h14),
        fun _ => hA14, fun hn => absurd h14 hn, fun hn _ => absurd h14 hn,
        hA12, hA10, derived_pointwise _ hA12 hA10⟩
    · by_cases hA : "API" ∈ df.cols
      · have hwf1 : (spWithColumn df "API14"
            (df.rows.map (fun r => (r.getD (colIdx df.cols "API") none).map (spLpad 14)))).WF :=
          spWithColumn_WF _ _ _ hwf
        have h14mem : "API14" ∈ (spWithColumn df "API14"
            (df.rows.map (fun r => (r.getD (colIdx df.cols "API") none).map (spLpad 14)))).cols :=
          List.mem_append_right _ (by simp)
        obtain ⟨hA14, hA12, hA10⟩ := sp_tail_spec _ hwf1 h14mem
        have hself := getColD_spWithColumn_self df "API14"
          (df.rows.map (fun r => (r.getD (colIdx df.cols "API") none).map (spLpad 14))) hwf
          (by simp)
        have hveq : (getColD df "API").map (Option.map (spLpad 14))
            = df.rows.map (fun r => (r.getD (colIdx df.cols "API") none).map (spLpad 14)) := by
          rw [getColD_pos df "API" hA, List.map_map]
          rfl
        exact ⟨_, notebooks_gen_eq_api df h14 (List.count_eq_one_of_mem hnd hA),
          fun hmem => absurd hmem h14,
          fun _ _ => hA14.trans (hself.trans hveq.symm),
          fun _ hn => absurd hA hn, hA12, hA10, derived_pointwise _ hA12 hA10⟩
      · have hP : "APINumber" ∈ df.cols := by
          rcases hid with h | h | h
          · exact absurd h h14
          · exact absurd h hA
          · exact h
        have hwf1 : (spWithColumn df "API14"
            (df.rows.map (fun r => (r.getD (colIdx df.cols "APINumber") none).map (spLpad 14)))).WF :=
          spWithColumn_WF _ _ _ hwf
        have h14mem : "API14" ∈ (spWithColumn df "API14"
            (df.rows.map (fun r => (r.getD (colIdx df.cols "APINumber") none).map (spLpad 14)))).cols :=
          List.mem_append_right _ (by simp)
        obtain ⟨hA14, hA12, hA10⟩ := sp_tail_spec _ hwf1 h14mem
        have hself := getColD_spWithColumn_self df "API14"
          (df.rows.map (fun r => (r.getD (colIdx df.cols "APINumber") none).map (spLpad 14))) hwf
          (by simp)
        have hveq : (getColD df "APINumber").map (Option.map (spLpad 14))
            = df.rows.map (fun r => (r.getD (colIdx df.cols "APINumber") none).map (spLpad 14)) := by
          rw [getColD_pos df "APINumber" hP, List.map_map]
          rfl
        exact ⟨_, notebooks_gen_eq_apinumber df h14 hA (List.count_eq_one_of_mem hnd hP),
          fun hmem => absurd hmem h14, fun _ hmem => absurd hmem hA,
          fun _ _ => hA14.trans (hself.trans hveq.symm),
          hA12, hA10, derived_pointwise _ hA12 hA10⟩

/-- C1 witness: both normalizers applied to a one-row record set with only an
API column (the specification's own test vector). -/
theorem c1_generate_api_columns_spec_witness :
    (∃ g, Scripts.generate_api_columns ⟨["API"], [[some "123"]]⟩ = Except.ok g ∧
      ("API14" ∈ (⟨["API"], [[some "123"]]⟩ : RecordSet).cols →
        getColD g "API14" = getColD ⟨["API"], [[some "123"]]⟩ "API14") ∧
      ("API14" ∉ (⟨["API"], [[some "123"]]⟩ : RecordSet).cols →
        "API" ∈ (⟨["API"], [[some "123"]]⟩ : RecordSet).cols →
        getColD g "API14" = (getColD ⟨["API"], [[some "123"]]⟩ "API").map
          (fun v => some (zfill 14 (astypeStr v)))) ∧
      ("API14" ∉ (⟨["API"], [[some "123"]]⟩ : RecordSet).cols →
        "API" ∉ (⟨["API"], [[some "123"]]⟩ : RecordSet).cols →
        getColD g "API14" = (getColD ⟨["API"], [[some "123"]]⟩ "APINumber").map
          (fun v => some (zfill 14 (astypeStr v)))) ∧
      getColD g "API12" = (getColD g "API14").map (Option.map (fun s => s.take 12)) ∧
      getColD g "API10" = (getColD g "API14").map (Option.map (fun s => s.take 10)) ∧
      (∀ i s14, (getColD g "API14").getD i none = some s14 →
        (getColD g "API12").getD i none = some (s14.take 12) ∧
        (getColD g "API10").getD i none = some (s14.take 10) ∧
        (s14.take 12).data <+: s14.data ∧ (s14.take 10).data <+: s14.data)) ∧
    (∃ g, Notebooks.generate_api_columns ⟨["API"], [[some "123"]]⟩ = Except.ok g ∧
      ("API14" ∈ (⟨["API"], [[some "123"]]⟩ : RecordSet).cols →
        getColD g "API14" = getColD ⟨["API"], [[some "123"]]⟩ "API14") ∧
      ("API14" ∉ (⟨["API"], [[some "123"]]⟩ : RecordSet).cols →
        "API" ∈ (⟨["API"], [[some "123"]]⟩ : RecordSet).cols →
        getColD g "API14" = (getColD ⟨["API"], [[some "123"]]⟩ "API").map
          (Option.map (spLpad 14))) ∧
      ("API14" ∉ (⟨["API"], [[some "123"]]⟩ : RecordSet).cols →
        "API" ∉ (⟨["API"], [[some "123"]]⟩ : RecordSet).cols →
        getColD g "API14" = (getColD ⟨["API"], [[some "123"]]⟩ "APINumber").map
          (Option.map (spLpad 14))) ∧
      getColD g "API12" = (getColD g "API14").map (Option.map (fun s => s.take 12)) ∧
      getColD g "API10" = (getColD g "API14").map (Option.map (fun s => s.take 10)) ∧
      (∀ i s14, (getColD g "API14").getD i none = some s14 →
        (getColD g "API12").getD i none = some (s14.take 12) ∧
        (getColD g "API10").getD i none = some (s14.take 10) ∧
        (s14.take 12).data <+: s14.data ∧ (s14.take 10).data <+: s14.data)) :=
  c1_generate_api_columns_spec ⟨["API"], [[some "123"]]⟩ (by decide) (by decide) (by decide)

/-- C1 counterexample: on a 15-character APINumber value the Snowpark
normalizer truncates - API14 comes out as the first 14 characters, not the
zero-left-padded string form of the value, which zfill would return
unchanged. -/
theorem c1_generate_api_columns_counterexample :
    Except.map (fun g => getColD g "API14")
        (Notebooks.generate_api_columns ⟨["APINumber"], [[some "987654321098765"]]⟩)
      = Except.ok [some "98765432109876"] ∧
    "98765432109876" ≠ "987654321098765" ∧
    zfill 14 "987654321098765" = "987654321098765" :=
  ⟨rfl, by decide, rfl⟩

/-! Claim C2. -/

/-- C2 (amended): Snowpark union_by_name matches columns by name but does not
null-fill: it succeeds exactly when the two column-name sets coincide; on
success the output carries the first set's schema, its rows are free of
duplicates (SQL UNION), and a row occurs in the output iff it is a row of the
first set or a reordering (to the first schema) of a row of the second. -/
theorem c2_union_by_name_spec (a b : RecordSet) :
    ((MasterWells.union_tables a b).isOk = true ↔
      ((∀ c ∈ a.cols, c ∈ b.cols) ∧ (∀ c ∈ b.cols, c ∈ a.cols))) ∧
    (∀ m, MasterWells.union_tables a b = Except.ok m →
      m.cols = a.cols ∧ m.rows.Nodup ∧
      (∀ row, row ∈ m.rows ↔ (row ∈ a.rows ∨
        row ∈ b.rows.map (fun br => a.cols.map (fun c => br.getD (colIdx b.cols c) none))))) := by
  unfold MasterWells.union_tables spUnionByName
  by_cases hg : (a.cols.all (fun c => b.cols.contains c) && b.cols.all (fun c => a.cols.contains c)) = true
  · rw [if_pos hg]
    have hiff : (∀ c ∈ a.cols, c ∈ b.cols) ∧ (∀ c ∈ b.cols, c ∈ a.cols) := by
      simpa using hg
    constructor
    · exact ⟨fun _ => hiff, fun _ => rfl⟩
    · intro m hm
      injection hm with hm
      subst hm
      refine ⟨rfl, List.nodup_dedup _, ?_⟩
      intro row
      rw [List.mem_dedup, List.mem_append]
  · rw [if_neg hg]
    constructor
    · constructor
      · intro hfalse; exact nomatch hfalse
      · intro hc
        exfalso
        apply hg
        simp only [Bool.and_eq_true, List.all_eq_true]
        exact ⟨fun c hcm => by simpa using hc.1 c hcm, fun c hcm => by simpa using hc.2 c hcm⟩
    · intro m hm; cases hm

/-- C2 witness: a union of two same-schema record sets, exercising both the
success criterion and the membership description of the output rows. -/
theorem c2_union_by_name_spec_witness :
    (MasterWells.union_tables ⟨["K"], [[some "x"]]⟩ ⟨["K"], [[some "x"], [some "y"]]⟩).isOk
      = true ∧
    (⟨["K"], [[some "x"], [some "y"]]⟩ : RecordSet).rows.Nodup ∧
    [some "y"] ∈ (⟨["K"], [[some "x"], [some "y"]]⟩ : RecordSet).rows :=
  ⟨((c2_union_by_name_spec ⟨["K"], [[some "x"]]⟩ ⟨["K"], [[some "x"], [some "y"]]⟩).1).mpr
      ⟨by decide, by decide⟩,
   (((c2_union_by_name_spec ⟨["K"], [[some "x"]]⟩ ⟨["K"], [[some "x"], [some "y"]]⟩).2)
      ⟨["K"], [[some "x"], [some "y"]]⟩ rfl).2.1,
   ((((c2_union_by_name_spec ⟨["K"], [[some "x"]]⟩ ⟨["K"], [[some "x"], [some "y"]]⟩).2)
      ⟨["K"], [[some "x"], [some "y"]]⟩ rfl).2.2 [some "y"]).mpr (Or.inr (by decide))⟩

/-- C2 counterexample: on the specification's own union example (schemas
API14+WELL_NAME with 2 rows and API14+DEPTH with 3 rows) the claim predicts
success with 5 null-filled rows, but union_by_name fails outright; and on
same-schema inputs containing a common row the claim predicts 3 output rows
while SQL UNION deduplication leaves 2. -/
theorem c2_union_by_name_counterexample :
    (MasterWells.union_tables
        ⟨["API14", "WELL_NAME"], [[some "1", some "a"], [some "2", some "b"]]⟩
        ⟨["API14", "DEPTH"], [[some "1", some "d"], [some "3", some "e"], [some "4", some "f"]]⟩).isOk
      = false ∧
    Except.map (fun m => m.rows.length)
        (MasterWells.union_tables ⟨["API14"], [[some "1"]]⟩
          ⟨["API14"], [[some "1"], [some "2"]]⟩)
      = Except.ok 2 :=
  ⟨rfl, rfl⟩

/-! Claim C3. -/

theorem exceptBind_err {α β : Type} (e : String) (f : α → Except String β) :
    ((Except.error e : Except String α) >>= f) = Except.error e := rfl

theorem spJoinLeft_ok_inv (l r : RecordSet) (key : String) (m : RecordSet)
    (hm : spJoinLeft l r key = Except.ok m) :
    ∃ li ri, resolveCol l key = Except.ok li ∧ resolveCol r key = Except.ok ri ∧
      m.cols = l.cols.map (fun c =>
          if l.cols.contains c && r.cols.contains c then "l_" ++ c else c)
        ++ r.cols.map (fun c =>
          if l.cols.contains c && r.cols.contains c then "r_" ++ c else c) ∧
      m.rows = l.rows.flatMap (fun lr =>
        let ms := r.rows.filter (fun rr => match lr.getD li none, rr.getD ri none with
          | some a, some b => a == b
          | _, _ => false)
        if ms.isEmpty then [lr ++ List.replicate r.cols.length none]
        else ms.map (fun rr => lr ++ rr)) := by
  unfold spJoinLeft at hm
  cases hl : resolveCol l key with
  | error e =>
    rw [hl, exceptBind_err] at hm
    exact nomatch hm
  | ok li =>
    rw [hl, exceptBind_ok] at hm
    cases hr : resolveCol r key with
    | error e =>
      rw [hr, exceptBind_err] at hm
      exact nomatch hm
    | ok ri =>
      rw [hr, exceptBind_ok] at hm
      injection hm with hm
      exact ⟨li, ri, rfl, rfl, by rw [← hm], by rw [← hm]⟩

theorem contains_eq_false_of_not_mem {l : List String} {a : String} (h : a ∉ l) :
    l.contains a = false := by
  cases hval : l.contains a with
  | false => rfl
  | true => exact absurd (by simpa using hval) h

theorem l_prefix_ne_api14 (c : String) : ¬ ("l_" ++ c = "API14") := by
  intro h
  have hd : 'l' :: '_' :: c.data = ['A', 'P', 'I', '1', '4'] := congrArg String.data h
  injection hd with h1 _
  exact absurd h1 (by decide)

theorem r_prefix_ne_api14 (c : String) : ¬ ("r_" ++ c = "API14") := by
  intro h
  have hd : 'r' :: '_' :: c.data = ['A', 'P', 'I', '1', '4'] := congrArg String.data h
  injection hd with h1 _
  exact absurd h1 (by decide)

theorem resolveCol_ok_inv (rs : RecordSet) (c : String) (i : Nat)
    (h : resolveCol rs c = Except.ok i) :
    i = colIdx rs.cols c ∧ rs.cols.count c = 1 := by
  unfold resolveCol at h
  by_cases hc : (rs.cols.count c == 1) = true
  · rw [if_pos hc] at h
    exact ⟨(Except.ok.inj h).symm, by simpa using hc⟩
  · rw [if_neg hc] at h
    exact nomatch h

/-- C3 (amended): the Snowpark enrichment joiner renames every secondary
column except the join key API14 to name_env before joining, and every output
row agrees with its originating base row on all base-column positions, so no
base column value is overwritten; the join then disambiguates the column
names occurring on both sides (at least the join key) with generated
left/right prefixes, a base column surviving under its own name exactly when
it does not collide with a renamed secondary name; the pandas joiner renames
only colliding secondary columns (see the counterexample). -/
theorem c3_secondary_suffix_renaming (df env m : RecordSet) (hwf : df.WF)
    (hm : Notebooks.join_env_columns df env = Except.ok m) :
    (Notebooks.renameSuffix "_env" env).cols
      = env.cols.map (fun c => if c == "API14" then c else c ++ "_env") ∧
    (∀ c ∈ df.cols, c ∉ (Notebooks.renameSuffix "_env" env).cols → c ∈ m.cols) ∧
    (∀ p ∈ m.rows, ∃ lr ∈ df.rows,
      ∀ i, i < df.cols.length → p.getD i none = lr.getD i none) := by
  obtain ⟨li, ri, hl, hr, hcols, hrows⟩ :=
    spJoinLeft_ok_inv df (Notebooks.renameSuffix "_env" env) "API14" m hm
  refine ⟨rfl, ?_, ?_⟩
  · intro c hc hnotr
    rw [hcols]
    apply List.mem_append_left
    refine List.mem_map.mpr ⟨c, hc, ?_⟩
    rw [contains_eq_false_of_not_mem hnotr, Bool.and_false, if_neg]
    exact Bool.false_ne_true
  · intro p hp
    rw [hrows] at hp
    rcases List.mem_flatMap.mp hp with ⟨lr, hlr, hpin⟩
    have hlen : lr.length = df.cols.length := hwf lr hlr
    refine ⟨lr, hlr, ?_⟩
    intro i hi
    have hilt : i < lr.length := by omega
    dsimp only at hpin
    by_cases hie : ((Notebooks.renameSuffix "_env" env).rows.filter
        (fun rr => match lr.getD li none, rr.getD ri none with
          | some a, some b => a == b
          | _, _ => false)).isEmpty = true
    · rw [if_pos hie] at hpin
      rcases List.mem_singleton.mp hpin with rfl
      exact List.getD_append lr _ none i hilt
    · rw [if_neg hie] at hpin
      rcases List.mem_map.mp hpin with ⟨rr, _, rfl⟩
      exact List.getD_append lr _ none i hilt

/-- C3 witness: the renaming shape and the survival of a non-colliding base
column name at a concrete base and secondary record set. -/
theorem c3_secondary_suffix_renaming_witness :
    (Notebooks.renameSuffix "_env" ⟨["API14", "E"], [[some "k", some "e"]]⟩).cols
      = (⟨["API14", "E"], [[some "k", some "e"]]⟩ : RecordSet).cols.map
          (fun c => if c == "API14" then c else c ++ "_env") ∧
    "W" ∈ (⟨["l_API14", "W", "r_API14", "E_env"],
        [[some "k", some "w", some "k", some "e"]]⟩ : RecordSet).cols :=
  ⟨(c3_secondary_suffix_renaming ⟨["API14", "W"], [[some "k", some "w"]]⟩
      ⟨["API14", "E"], [[some "k", some "e"]]⟩
      ⟨["l_API14", "W", "r_API14", "E_env"], [[some "k", some "w", some "k", some "e"]]⟩
      (by decide) rfl).1,
   (c3_secondary_suffix_renaming ⟨["API14", "W"], [[some "k", some "w"]]⟩
      ⟨["API14", "E"], [[some "k", some "e"]]⟩
      ⟨["l_API14", "W", "r_API14", "E_env"], [[some "k", some "w", some "k", some "e"]]⟩
      (by decide) rfl).2.1 "W" (by decide) (by decide)⟩

/-- C3 counterexample: the pandas joiner does not rename a non-colliding
secondary column (DEPTH stays DEPTH, not DEPTH_env), contradicting the claim
that every secondary column except the join key is renamed; and in the
Snowpark join output no column named API14 survives at all (the key columns
of both sides are disambiguated away), so the base API14 column does not
remain addressable under its name as the claimed no-shadowing guarantee
requires. -/
theorem c3_secondary_suffix_renaming_counterexample :
    Except.map (fun m => m.cols)
        (Scripts.join_env_columns ⟨["API14", "W"], [[some "k", some "w"]]⟩
          ⟨["API14", "DEPTH"], [[some "k", some "d"]]⟩)
      = Except.ok ["API14", "W", "DEPTH"] ∧
    "DEPTH_env" ∉ (["API14", "W", "DEPTH"] : List String) ∧
    Except.map (fun m => m.cols.count "API14")
        (Notebooks.join_env_columns ⟨["API14", "G"], [[some "k", some "g"]]⟩
          ⟨["API14", "H"], [[some "k", some "h"]]⟩)
      = Except.ok 0 :=
  ⟨rfl, by decide, rfl⟩

/-! Claim C6. -/

/-- C6 (amended): the pipeline variants of src/master_wells_transform.py and
src/notebooks/snowflake_transform.py are the same function of their three
input tables; the notebooks variant is not equivalent to them — it joins on
API14 rather than API_WELL_NUMBER, adds a suffixed env join, and its chained
join fails on the duplicated key column (see the counterexample). -/
theorem c6_root_snowflake_transform_equal (rb env rbc : RecordSet) :
    MasterWells.transform_master_wells_table rb env rbc
      = SnowflakeTransform.transform_master_wells_table rb env rbc := rfl

/-- C6 counterexample: on one identical input triple the root variant
succeeds while the notebooks variant fails (its second enrichment join
cannot resolve API14, which the first join duplicated), so the variants do
not produce equal results. -/
theorem c6_variants_counterexample :
    (MasterWells.transform_master_wells_table
        ⟨["API14", "WELL_NAME", "API_WELL_NUMBER"],
          [[some "00000000000001", some "a", some "1"]]⟩
        ⟨["API14", "WELL_NAME", "API_WELL_NUMBER"],
          [[some "00000000000002", some "b", some "2"]]⟩
        ⟨["API_WELL_NUMBER", "OVR"], [[some "1", some "o"]]⟩).isOk = true ∧
    (Notebooks.transform_master_wells_table
        ⟨["API14", "WELL_NAME", "API_WELL_NUMBER"],
          [[some "00000000000001", some "a", some "1"]]⟩
        ⟨["API14", "WELL_NAME", "API_WELL_NUMBER"],
          [[some "00000000000002", some "b", some "2"]]⟩
        ⟨["API_WELL_NUMBER", "OVR"], [[some "1", some "o"]]⟩).isOk = false :=
  ⟨rfl, rfl⟩

/-! Claim C9. -/

theorem pdMerge_ok_inv (l r : RecordSet) (key suffix : String) (m : RecordSet)
    (hm : pdMerge l r key suffix = Except.ok m) :
    key ∈ l.cols ∧ key ∈ r.cols ∧
    (pdMergeCols l.cols r.cols key suffix).Nodup ∧
    m.cols = pdMergeCols l.cols r.cols key suffix ∧
    m.rows = l.rows.flatMap (fun lr =>
      mergeRowGroup r (colIdx r.cols key) lr (lr.getD (colIdx l.cols key) none)) := by
  unfold pdMerge at hm
  by_cases h1 : (!(l.cols.contains key) || !(r.cols.contains key)) = true
  · rw [if_pos h1] at hm; exact nomatch hm
  · rw [if_neg h1] at hm
    by_cases h2 : (pdMergeCols l.cols r.cols key suffix).Nodup
    · rw [if_pos h2] at hm
      injection hm with hm
      have h1a : key ∈ l.cols ∧ key ∈ r.cols := by
        simp only [Bool.or_eq_true, Bool.not_eq_true', not_or, Bool.not_eq_false] at h1
        exact ⟨by simpa using h1.1, by simpa using h1.2⟩
      exact ⟨h1a.1, h1a.2, h2, by rw [← hm], by rw [← hm]⟩
    · rw [if_neg h2] at hm; exact nomatch hm

theorem nodup_cols_setCol (rs : RecordSet) (c : String) (vals : List Value)
    (hnd : rs.cols.Nodup) : (setCol rs c vals).cols.Nodup := by
  unfold setCol
  by_cases hc : rs.cols.contains c = true
  · rw [if_pos hc]; exact hnd
  · rw [if_neg hc]
    rw [List.nodup_append]
    refine ⟨hnd, List.nodup_singleton c, ?_⟩
    intro x hx hx2
    rcases List.mem_singleton.mp hx2 with rfl
    exact absurd hx (by simpa using hc)

theorem scripts_gen_ok_inv (df g : RecordSet)
    (hg : Scripts.generate_api_columns df = Except.ok g) :
    ∃ df1, (df1 = df ∨ ∃ vals, df1 = setCol df "API14" vals) ∧ g = scriptsApiTail df1 := by
  unfold Scripts.generate_api_columns at hg
  by_cases h14 : df.cols.contains "API14" = true
  · rw [if_pos h14] at hg
    have hg2 : Except.ok (scriptsApiTail df) = Except.ok g := hg
    exact ⟨df, Or.inl rfl, (Except.ok.inj hg2).symm⟩
  · rw [if_neg h14] at hg
    by_cases hA : df.cols.contains "API" = true
    · rw [if_pos hA] at hg
      have hg2 : Except.ok (scriptsApiTail
          (setCol df "API14" ((getColD df "API").map (fun v => some (zfill 14 (astypeStr v))))))
          = Except.ok g := hg
      exact ⟨setCol df "API14" ((getColD df "API").map (fun v => some (zfill 14 (astypeStr v)))),
        Or.inr ⟨_, rfl⟩, (Except.ok.inj hg2).symm⟩
    · rw [if_neg hA] at hg
      by_cases hP : df.cols.contains "APINumber" = true
      · rw [if_pos hP] at hg
        have hg2 : Except.ok (scriptsApiTail
            (setCol df "API14" ((getColD df "APINumber").map (fun v => some (zfill 14 (astypeStr v))))))
            = Except.ok g := hg
        exact ⟨setCol df "API14" ((getColD df "APINumber").map (fun v => some (zfill 14 (astypeStr v)))),
          Or.inr ⟨_, rfl⟩, (Except.ok.inj hg2).symm⟩
      · rw [if_neg hP] at hg
        exact nomatch hg

/-- C9 (amended): the pandas pipeline operations keep column names pairwise
distinct — the merge refuses suffix collisions, so a successful join has
distinct names and exactly one API14 column, and the normalizer preserves
distinctness — whereas the Snowpark expression join disambiguates the
join-key columns of both sides with generated prefixes, so its output
contains no column named API14 rather than exactly one. -/
theorem c9_column_uniqueness (df env m dg : RecordSet) (hnd : df.cols.Nodup)
    (h14 : "API14" ∈ df.cols)
    (hm : Scripts.join_env_columns df env = Except.ok m)
    (hdg : Scripts.generate_api_columns df = Except.ok dg) :
    m.cols.Nodup ∧ m.cols.count "API14" = 1 ∧ dg.cols.Nodup ∧
    (∀ env2 m2, Notebooks.join_env_columns df env2 = Except.ok m2 →
      m2.cols.count "API14" = 0) := by
  obtain ⟨hkl, hkr, hnd2, hcols, hrows⟩ := pdMerge_ok_inv df env "API14" "_env" m hm
  refine ⟨hcols ▸ hnd2, ?_, ?_, ?_⟩
  · rw [hcols]
    exact List.count_eq_one_of_mem hnd2 (List.mem_append_left _ h14)
  · obtain ⟨df1, hdf1, hgeq⟩ := scripts_gen_ok_inv df dg hdg
    have hnd1 : df1.cols.Nodup := by
      rcases hdf1 with rfl | ⟨vals, rfl⟩
      · exact hnd
      · exact nodup_cols_setCol df "API14" vals hnd
    rw [hgeq]
    exact nodup_cols_setCol _ "API10" _ (nodup_cols_setCol _ "API12" _ hnd1)
  · intro env2 m2 hm2
    obtain ⟨li, ri, hl, hr, hcols2, -⟩ :=
      spJoinLeft_ok_inv df (Notebooks.renameSuffix "_env" env2) "API14" m2 hm2
    obtain ⟨-, hcntL⟩ := resolveCol_ok_inv _ _ _ hl
    obtain ⟨-, hcntR⟩ := resolveCol_ok_inv _ _ _ hr
    have hcl : df.cols.contains "API14" = true := by
      simpa using List.count_pos_iff.mp (by omega : 0 < List.count "API14" df.cols)
    have hcr : (Notebooks.renameSuffix "_env" env2).cols.contains "API14" = true := by
      simpa using List.count_pos_iff.mp
        (by omega : 0 < List.count "API14" (Notebooks.renameSuffix "_env" env2).cols)
    have hL : "API14" ∉ df.cols.map (fun c =>
        if df.cols.contains c && (Notebooks.renameSuffix "_env" env2).cols.contains c
        then "l_" ++ c else c) := by
      intro hmem
      rcases List.mem_map.mp hmem with ⟨c, hc, hfc⟩
      by_cases hcc : (df.cols.contains c
          && (Notebooks.renameSuffix "_env" env2).cols.contains c) = true
      · rw [if_pos hcc] at hfc
        exact l_prefix_ne_api14 c hfc
      · rw [if_neg hcc] at hfc
        subst hfc
        exact hcc (by rw [hcl, hcr]; rfl)
    have hR : "API14" ∉ (Notebooks.renameSuffix "_env" env2).cols.map (fun c =>
        if df.cols.contains c && (Notebooks.renameSuffix "_env" env2).cols.contains c
        then "r_" ++ c else c) := by
      intro hmem
      rcases List.mem_map.mp hmem with ⟨c, hc, hfc⟩
      by_cases hcc : (df.cols.contains c
          && (Notebooks.renameSuffix "_env" env2).cols.contains c) = true
      · rw [if_pos hcc] at hfc
        exact r_prefix_ne_api14 c hfc
      · rw [if_neg hcc] at hfc
        subst hfc
        exact hcc (by rw [hcl, hcr]; rfl)
    rw [hcols2, List.count_append, List.count_eq_zero.mpr hL, List.count_eq_zero.mpr hR]

/-- C9 witness: uniqueness of the output column names at a concrete join and
normalization, and absence of an API14 column from a concrete Snowpark join
output. -/
theorem c9_column_uniqueness_witness :
    (["API14", "W", "D"] : List String).Nodup ∧
    (["API14", "W", "D"] : List String).count "API14" = 1 ∧
    (["API14", "W", "API12", "API10"] : List String).Nodup ∧
    (["l_API14", "W", "r_API14", "H_env"] : List String).count "API14" = 0 :=
  ⟨(c9_column_uniqueness ⟨["API14", "W"], [[some "k", some "w"]]⟩
      ⟨["API14", "D"], [[some "k", some "d"]]⟩
      ⟨["API14", "W", "D"], [[some "k", some "w", some "d"]]⟩
      ⟨["API14", "W", "API12", "API10"], [[some "k", some "w", some "k", some "k"]]⟩
      (by decide) (by decide) rfl rfl).1,
   (c9_column_uniqueness ⟨["API14", "W"], [[some "k", some "w"]]⟩
      ⟨["API14", "D"], [[some "k", some "d"]]⟩
      ⟨["API14", "W", "D"], [[some "k", some "w", some "d"]]⟩
      ⟨["API14", "W", "API12", "API10"], [[some "k", some "w", some "k", some "k"]]⟩
      (by decide) (by decide) rfl rfl).2.1,
   (c9_column_uniqueness ⟨["API14", "W"], [[some "k", some "w"]]⟩
      ⟨["API14", "D"], [[some "k", some "d"]]⟩
      ⟨["API14", "W", "D"], [[some "k", some "w", some "d"]]⟩
      ⟨["API14", "W", "API12", "API10"], [[some "k", some "w", some "k", some "k"]]⟩
      (by decide) (by decide) rfl rfl).2.2.1,
   (c9_column_uniqueness ⟨["API14", "W"], [[some "k", some "w"]]⟩
      ⟨["API14", "D"], [[some "k", some "d"]]⟩
      ⟨["API14", "W", "D"], [[some "k", some "w", some "d"]]⟩
      ⟨["API14", "W", "API12", "API10"], [[some "k", some "w", some "k", some "k"]]⟩
      (by decide) (by decide) rfl rfl).2.2.2
      ⟨["API14", "H"], [[some "k", some "h"]]⟩
      ⟨["l_API14", "W", "r_API14", "H_env"], [[some "k", some "w", some "k", some "h"]]⟩
      rfl⟩

/-- C9 counterexample: after the Snowpark enrichment join on API14 the output
contains no column named API14 at all — both sides' key columns are renamed
apart by the join's disambiguation — so the count of API14 columns is 0, not
the claimed exactly one. -/
theorem c9_column_uniqueness_counterexample :
    Except.map (fun m => m.cols.count "API14")
        (Notebooks.join_env_columns ⟨["API14", "B"], [[some "k", some "b"]]⟩
          ⟨["API14", "E"], [[some "k", some "e"]]⟩)
      = Except.ok 0 ∧
    (0 : Nat) ≠ 1 :=
  ⟨rfl, by decide⟩

/-! Claim C8. -/

theorem length_mergeRowGroup (r : RecordSet) (ri : Nat) (lr : List Value) (lv : Value) :
    (mergeRowGroup r ri lr lv).length = max 1 (matchCount r ri lv) := by
  unfold mergeRowGroup matchCount
  by_cases h : (r.rows.filter (fun rr => rr.getD ri none == lv)).isEmpty = true
  · rw [if_pos h]
    rw [List.isEmpty_iff] at h
    rw [h]
    simp
  · rw [if_neg h]
    have hne : (r.rows.filter (fun rr => rr.getD ri none == lv)) ≠ [] := by
      simpa [List.isEmpty_iff] using h
    rw [List.length_map]
    exact (Nat.max_eq_right (List.length_pos_of_ne_nil hne)).symm

theorem getD_key_mergeRowGroup (r : RecordSet) (ri li : Nat) (lr : List Value) (lv : Value)
    (hli : li < lr.length) :
    ∀ p ∈ mergeRowGroup r ri lr lv, p.getD li none = lr.getD li none := by
  intro p hp
  unfold mergeRowGroup at hp
  by_cases h : (r.rows.filter (fun rr => rr.getD ri none == lv)).isEmpty = true
  · rw [if_pos h] at hp
    rcases List.mem_singleton.mp hp with rfl
    exact List.getD_append _ _ _ _ hli
  · rw [if_neg h] at hp
    rcases List.mem_map.mp hp with ⟨rr, _, rfl⟩
    exact List.getD_append _ _ _ _ hli

theorem sum_map_congr {β : Type} (l : List β) (f g : β → Nat) (h : ∀ b ∈ l, f b = g b) :
    (l.map f).sum = (l.map g).sum := by
  rw [List.map_congr_left h]

theorem sum_map_flatMap {α β : Type} (l : List α) (f : α → List β) (g : β → Nat) :
    ((l.flatMap f).map g).sum = (l.map (fun a => ((f a).map g).sum)).sum := by
  induction l with
  | nil => rfl
  | cons a t ih =>
    rw [List.flatMap_cons, List.map_append, List.sum_append, List.map_cons, List.sum_cons, ih]

theorem sum_map_const_of {β : Type} (l : List β) (g : β → Nat) (c : Nat)
    (h : ∀ b ∈ l, g b = c) : (l.map g).sum = l.length * c := by
  rw [List.map_congr_left h, List.map_const', List.sum_replicate, smul_eq_mul]

theorem pdMerge_rows_length (l r : RecordSet) (key suffix : String) (m : RecordSet)
    (hm : pdMerge l r key suffix = Except.ok m) :
    m.rows.length = (l.rows.map (fun lr =>
      max 1 (matchCount r (colIdx r.cols key) (lr.getD (colIdx l.cols key) none)))).sum := by
  obtain ⟨_, _, _, _, hrows⟩ := pdMerge_ok_inv l r key suffix m hm
  rw [hrows, List.length_flatMap]
  exact sum_map_congr _ _ _
    (fun lr _ => length_mergeRowGroup r (colIdx r.cols key) lr (lr.getD (colIdx l.cols key) none))

/-- C8: the pandas enrichment join is a left outer join on API14: the output
rows are, base row by base row in order, the base row once with NULL-filled
secondary cells when no secondary row matches its key, else one copy per
matching secondary row; the row count is the sum of max 1 (number of
matches), hence equal to the base row count when every key matches at most
one secondary row. -/
theorem c8_left_outer_join_semantics (df env m : RecordSet)
    (hm : Scripts.join_env_columns df env = Except.ok m) :
    m.rows = df.rows.flatMap (fun lr =>
      mergeRowGroup env (colIdx env.cols "API14") lr (lr.getD (colIdx df.cols "API14") none)) ∧
    m.rows.length = (df.rows.map (fun lr =>
      max 1 (matchCount env (colIdx env.cols "API14") (lr.getD (colIdx df.cols "API14") none)))).sum ∧
    ((∀ v, matchCount env (colIdx env.cols "API14") v ≤ 1) →
      m.rows.length = df.rows.length) := by
  obtain ⟨_, _, _, _, hrows⟩ := pdMerge_ok_inv df env "API14" "_env" m hm
  have hlen := pdMerge_rows_length df env "API14" "_env" m hm
  refine ⟨hrows, hlen, ?_⟩
  intro hOne
  rw [hlen]
  have h1 : ∀ lr ∈ df.rows,
      max 1 (matchCount env (colIdx env.cols "API14") (lr.getD (colIdx df.cols "API14") none)) = 1 := by
    intro lr _
    have := hOne (lr.getD (colIdx df.cols "API14") none)
    omega
  rw [sum_map_const_of _ _ 1 h1, Nat.mul_one]

/-- C8 witness: a two-row base joined against a one-row secondary whose key
matches the first base row only; the output keeps exactly the base row
count. -/
theorem c8_left_outer_join_semantics_witness :
    (⟨["API14", "A", "B"], [[some "1", some "a", some "x"], [some "2", some "b", none]]⟩
        : RecordSet).rows.length
      = (⟨["API14", "A"], [[some "1", some "a"], [some "2", some "b"]]⟩ : RecordSet).rows.length :=
  (c8_left_outer_join_semantics
    ⟨["API14", "A"], [[some "1", some "a"], [some "2", some "b"]]⟩
    ⟨["API14", "B"], [[some "1", some "x"]]⟩
    ⟨["API14", "A", "B"], [[some "1", some "a", some "x"], [some "2", some "b", none]]⟩
    rfl).2.2
    (fun v => Nat.le_trans (List.length_filter_le _ _) (by decide))

/-! Claim C5. -/

theorem merge_chain_length (df r1 r2 m1 m2 : RecordSet) (key s1 s2 : String) (hwf : df.WF)
    (h1 : pdMerge df r1 key s1 = Except.ok m1)
    (h2 : pdMerge m1 r2 key s2 = Except.ok m2) :
    m2.rows.length = (df.rows.map (fun lr =>
      (max 1 (matchCount r1 (colIdx r1.cols key) (lr.getD (colIdx df.cols key) none)))
        * (max 1 (matchCount r2 (colIdx r2.cols key) (lr.getD (colIdx df.cols key) none))))).sum := by
  obtain ⟨hk1, _, _, hcols1, hrows1⟩ := pdMerge_ok_inv df r1 key s1 m1 h1
  have hlen2 := pdMerge_rows_length m1 r2 key s2 m2 h2
  have hkeyidx : colIdx m1.cols key = colIdx df.cols key := by
    rw [hcols1]
    unfold pdMergeCols
    exact colIdx_append_left _ hk1
  rw [hlen2, hkeyidx, hrows1, sum_map_flatMap]
  apply sum_map_congr
  intro lr hlr
  have hli : colIdx df.cols key < lr.length := by
    rw [hwf lr hlr]
    exact colIdx_lt_length hk1
  rw [sum_map_const_of _ _
      (max 1 (matchCount r2 (colIdx r2.cols key) (lr.getD (colIdx df.cols key) none)))
      (fun p hp => by rw [getD_key_mergeRowGroup _ _ _ _ _ hli p hp]),
    length_mergeRowGroup]

/-- C5 (amended): when both orders of the two pandas enrichment joins
succeed, the outputs have the same number of rows; the column-name sets can
differ between the orders (see counterexample), and one order can fail while
the other succeeds when suffixing collides. -/
theorem c5_enrichment_order_row_count (df env rbc m1 m2 n1 n2 : RecordSet) (hwf : df.WF)
    (h1 : Scripts.join_env_columns df env = Except.ok m1)
    (h2 : Scripts.join_rbc_columns m1 rbc = Except.ok m2)
    (h3 : Scripts.join_rbc_columns df rbc = Except.ok n1)
    (h4 : Scripts.join_env_columns n1 env = Except.ok n2) :
    m2.rows.length = n2.rows.length := by
  have e1 := merge_chain_length df env rbc m1 m2 "API14" "_env" "_rbc" hwf h1 h2
  have e2 := merge_chain_length df rbc env n1 n2 "API14" "_rbc" "_env" hwf h3 h4
  rw [e1, e2]
  exact sum_map_congr _ _ _ (fun lr _ => Nat.mul_comm _ _)

/-- C5 witness: both orders of the enrichment joins applied to a concrete
base and two secondary sources give one output row each. -/
theorem c5_enrichment_order_row_count_witness :
    (⟨["API14", "X", "Y"], [[some "k", some "e", some "r"]]⟩ : RecordSet).rows.length
      = (⟨["API14", "Y", "X"], [[some "k", some "r", some "e"]]⟩ : RecordSet).rows.length :=
  c5_enrichment_order_row_count ⟨["API14"], [[some "k"]]⟩
    ⟨["API14", "X"], [[some "k", some "e"]]⟩ ⟨["API14", "Y"], [[some "k", some "r"]]⟩
    ⟨["API14", "X"], [[some "k", some "e"]]⟩
    ⟨["API14", "X", "Y"], [[some "k", some "e", some "r"]]⟩
    ⟨["API14", "Y"], [[some "k", some "r"]]⟩
    ⟨["API14", "Y", "X"], [[some "k", some "r", some "e"]]⟩
    (by decide) rfl rfl rfl rfl

/-- C5 counterexample: with a secondary column name X occurring in both
secondary sources, the two orders of enrichment succeed but produce different
column-name sets (X_rbc versus X_env), refuting the claimed identical column
sets. -/
theorem c5_enrichment_order_counterexample :
    Except.map (fun m => m.cols)
        ((Scripts.join_env_columns ⟨["API14"], [[some "k"]]⟩
            ⟨["API14", "X"], [[some "k", some "e"]]⟩).bind
          (fun m => Scripts.join_rbc_columns m ⟨["API14", "X"], [[some "k", some "r"]]⟩))
      = Except.ok ["API14", "X", "X_rbc"] ∧
    Except.map (fun m => m.cols)
        ((Scripts.join_rbc_columns ⟨["API14"], [[some "k"]]⟩
            ⟨["API14", "X"], [[some "k", some "r"]]⟩).bind
          (fun m => Scripts.join_env_columns m ⟨["API14", "X"], [[some "k", some "e"]]⟩))
      = Except.ok ["API14", "X", "X_env"] ∧
    "X_rbc" ∉ (["API14", "X", "X_env"] : List String) ∧
    "X_env" ∉ (["API14", "X", "X_rbc"] : List String) :=
  ⟨rfl, rfl, by decide, by decide⟩
